import Mathlib

/-!
Verification of the article-summariser repository.

This file gives a shallow embedding, in Lean 4, of the pure computational
core of the repository (`src/app.py`, `src/article_scraper.py`,
`src/summarizer.py`) and proves or refutes the frozen behavioural claims
about it.

Python strings are represented as `List Char` (ASCII scope, which covers
every string manipulated by the embedded code paths).  Python functions
that can raise are embedded as `Except String`-valued functions, a
`try/except` block as a match on that value.  Calls into third-party
libraries (the completion service, the two scraping libraries, the fast
language detector) are parameters of the embedding: each embedded caller
takes the outcome of the external call as an explicit argument, an
exception raised by the library being an `Except.error`.
-/

/-- Python `str` values, represented by their character lists. -/
abbrev PyStr := List Char

/-- Python's whitespace class (the `\s` regex class and `str.strip()`),
ASCII range: space, tab, newline, carriage return, vertical tab, form feed. -/
def isPySpace (c : Char) : Bool :=
  c == ' ' || c == '\t' || c == '\n' || c == '\r' ||
    c == Char.ofNat 11 || c == Char.ofNat 12

/-- Python `str.lower()` on one ASCII character (code points 65-90 are
`A`-`Z`). -/
def lowerChar (c : Char) : Char :=
  if 65 ≤ c.toNat ∧ c.toNat ≤ 90 then Char.ofNat (c.toNat + 32) else c

/-- Python `str.upper()` on one ASCII character (code points 97-122 are
`a`-`z`). -/
def upperChar (c : Char) : Char :=
  if 97 ≤ c.toNat ∧ c.toNat ≤ 122 then Char.ofNat (c.toNat - 32) else c

/-- Python `str.lower()`. -/
def pyLower (l : PyStr) : PyStr := l.map lowerChar

/-- Python `str.upper()`. -/
def pyUpper (l : PyStr) : PyStr := l.map upperChar

/-- Python `str.strip()`: drop whitespace from both ends. -/
def pyStrip (l : PyStr) : PyStr :=
  (l.dropWhile isPySpace).rdropWhile isPySpace

/-- Python `str.strip(chars)`: drop characters of the given set from both
ends. -/
def pyStripChars (cset : PyStr) (l : PyStr) : PyStr :=
  (l.dropWhile (cset.contains ·)).rdropWhile (cset.contains ·)

/-- Worker for Python `str.replace(pat, rep)`: scan left to right, replace
each occurrence of `pat`, continue after the replacement (occurrences never
overlap).  `fuel` bounds the recursion; it is always called with enough
fuel for the scan to finish, so the `0` case is dead code. -/
def replaceAllGo (pat rep : PyStr) : Nat → PyStr → PyStr
  | 0, _ => []
  | _ + 1, [] => []
  | fuel + 1, c :: cs =>
    if pat ≠ [] ∧ pat <+: (c :: cs) then
      rep ++ replaceAllGo pat rep fuel ((c :: cs).drop pat.length)
    else
      c :: replaceAllGo pat rep fuel cs

/-- Python `str.replace(pat, rep)` (all occurrences, left to right). -/
def replaceAll (pat rep l : PyStr) : PyStr :=
  replaceAllGo pat rep l.length l

/-- Worker for `re.sub(r'\s+', ' ', s)`: replace each maximal whitespace
run by a single space.  Fuel-bounded like `replaceAllGo`. -/
def collapseWsGo : Nat → PyStr → PyStr
  | 0, _ => []
  | _ + 1, [] => []
  | fuel + 1, c :: cs =>
    if isPySpace c then ' ' :: collapseWsGo fuel (cs.dropWhile isPySpace)
    else c :: collapseWsGo fuel cs

/-- `re.sub(r'\s+', ' ', s)`: collapse each whitespace run to one space. -/
def collapseWs (l : PyStr) : PyStr :=
  collapseWsGo l.length l

/-- `re.search(r'text="([^"]+)"', s)`: return the first capture group, if
the pattern matches anywhere.  A match at position `i` needs the literal
`text="`, then a nonempty run of non-quote characters (the group), then a
closing quote. -/
def searchTextQuote : PyStr → Option PyStr
  | [] => none
  | c :: cs =>
    let l := c :: cs
    if ("text=\"").data <+: l then
      let rest := l.drop 6
      let grp := rest.takeWhile (fun d => d ≠ '"')
      if grp ≠ [] ∧ rest.drop grp.length ≠ [] then some grp
      else searchTextQuote cs
    else searchTextQuote cs

/-- `ArticleSummarizer._fix_api_response_encoding` (src/summarizer.py):
delegates to the external `ftfy.fix_text` mojibake-repair library and falls
back to the unchanged input on any failure.  `ftfy` is a third-party
collaborator; it is modelled as the identity map, which is its behaviour on
already well-encoded text. -/
def fixApiResponseEncoding (l : PyStr) : PyStr := l

/-- The wrapper marker literal `TextBlock`. -/
def tbMarker : PyStr := ("TextBlock").data

/-- The wrapper literal `TextBlock(text="`. -/
def tbOpenLit : PyStr := ("TextBlock(text=\"").data

/-- The wrapper literal `", type="text")`. -/
def tbCloseLit : PyStr := ("\", type=\"text\")").data

/-- First phase of `ArticleSummarizer._clean_response` (src/summarizer.py),
everything before the final whitespace collapse and trim: capture the inner
text of the `TextBlock(...)` serialization wrapper via the regex when the
marker is present, repair encoding, strip the two residual wrapper
literals, and flatten the three line-break variants to spaces. -/
def preCleanResponse (s : PyStr) : PyStr :=
  replaceAll ['\r'] [' ']
    (replaceAll ['\n'] [' ']
      (replaceAll ('\r' :: '\n' :: []) [' ']
        (replaceAll tbCloseLit []
          (replaceAll tbOpenLit []
            (fixApiResponseEncoding
              (if tbMarker <:+: s then
                match searchTextQuote s with
                | some grp => grp
                | none => s
              else s))))))

/-- `ArticleSummarizer._clean_response` (src/summarizer.py): the phase
above, then collapse whitespace runs to single spaces and trim. -/
def cleanResponse (s : PyStr) : PyStr :=
  pyStrip (collapseWs (preCleanResponse s))

/-- "Not both whitespace": the relation between adjacent characters of a
whitespace-collapsed string. -/
def notBothWs (a b : Char) : Prop := ¬(isPySpace a = true ∧ isPySpace b = true)

/-- Python regex `\w` word character, ASCII scope: letters, digits,
underscore. -/
def isWordChar (c : Char) : Bool := c.isAlphanum || c == '_'

/-- Whether position `i` of the text holds a word character (out of range
counts as non-word). -/
def isWordAt (l : PyStr) (i : Nat) : Bool :=
  match l[i]? with
  | some c => isWordChar c
  | none => false

/-- Regex `\b`: a word boundary sits at position `i` when exactly one of
the character before and the character at `i` is a word character. -/
def isBoundary (l : PyStr) (i : Nat) : Bool :=
  (if i = 0 then false else isWordAt l (i - 1)) != isWordAt l i

/-- Case-insensitive literal match of `name` at position `i` of `text`
(`re.IGNORECASE`, ASCII). -/
def matchLit (name text : PyStr) (i : Nat) : Bool :=
  pyLower ((text.drop i).take name.length) == pyLower name

/-- One attempted match of the combined pattern `\b<name>(?:'?s)?\b`
(`re.IGNORECASE`) at position `i`: word boundary, the literal name, then
the greedy optional suffix — `'s` if present, else `s` if present — with
backtracking to the bare name when the final word boundary fails.  Returns
the end position of the match, if any. -/
def mentionMatchEnd (name text : PyStr) (i : Nat) : Option Nat :=
  if isBoundary text i ∧ matchLit name text i then
    let e := i + name.length
    let cands :=
      if text[e]? = some '\'' ∧ (text[e + 1]?).map lowerChar = some 's' then
        [e + 2, e]
      else if (text[e]?).map lowerChar = some 's' then [e + 1, e]
      else [e]
    cands.find? (fun e2 => isBoundary text e2)
  else none

/-- One attempted match of `\b<name><suffix>\b` (`re.IGNORECASE`) at
position `i`, for a fixed literal suffix. -/
def litEnd (name suff text : PyStr) (i : Nat) : Option Nat :=
  if isBoundary text i ∧ matchLit name text i ∧
      matchLit suff text (i + name.length) ∧
      isBoundary text (i + name.length + suff.length) then
    some (i + name.length + suff.length)
  else none

/-- `re.findall` match counting: scan candidate start positions left to
right; on a match, count it and resume at its end (one past it for an
empty match).  Fuel-bounded; the initial fuel `len + 1` always suffices
because the position strictly increases. -/
def scanCountGo (matchEndAt : Nat → Option Nat) : Nat → Nat → Nat → Nat
  | 0, _, _ => 0
  | fuel + 1, len, i =>
    if i ≤ len then
      match matchEndAt i with
      | some e => 1 + scanCountGo matchEndAt fuel len (if i < e then e else i + 1)
      | none => scanCountGo matchEndAt fuel len (i + 1)
    else 0

/-- Number of `re.findall` matches of the given matcher over the text. -/
def scanCount (matchEndAt : Nat → Option Nat) (text : PyStr) : Nat :=
  scanCountGo matchEndAt (text.length + 1) text.length 0

/-- The sum `count_client_mentions` (src/app.py) first accumulates over
its three separate patterns `\b<name>\b`, `\b<name>'s\b` and
`\b<name>s\b`: a possessive mention matches both the first and the
second pattern, so this sum double-counts.  The source computes it into
`total_count` and then discards it. -/
def tripleMentionSum (article_text name : PyStr) : Nat :=
  scanCount (litEnd name [] article_text) article_text +
    scanCount (litEnd name ['\'', 's'] article_text) article_text +
    scanCount (litEnd name ['s'] article_text) article_text

/-- `count_client_mentions` (src/app.py): 0 for empty text or name;
otherwise strip the name, compute (and discard) the three-pattern sum, and
return the deduplicated count of the combined pattern
`\b<name>(?:'?s)?\b`. -/
def countClientMentions (article_text client_name : PyStr) : Nat :=
  if article_text = [] ∨ client_name = [] then 0
  else
    let name := pyStrip client_name
    let _total_count := tripleMentionSum article_text name
    scanCount (mentionMatchEnd name article_text) article_text

/-- The specification's mention count (spec section 4.3): the number of
non-overlapping case-insensitive matches of the single combined pattern
`\b<name>(?:'?s)?\b` against the text, the name being matched in trimmed
form, and 0 for an empty name or text. -/
def specMentionCount (article_text client_name : PyStr) : Nat :=
  if article_text = [] ∨ client_name = [] then 0
  else scanCount (mentionMatchEnd (pyStrip client_name) article_text) article_text

/-- Python `str.title()` (ASCII scope): uppercase a letter that follows a
non-letter, lowercase a letter that follows a letter. -/
def titleGo : Bool → PyStr → PyStr
  | _, [] => []
  | prevAlpha, c :: cs =>
    (if c.isAlpha then (if prevAlpha then lowerChar c else upperChar c) else c) ::
      titleGo c.isAlpha cs

/-- Python `str.title()`. -/
def pyTitle (l : PyStr) : PyStr := titleGo false l

/-- Python `str.split('.')` (keeps empty pieces, always at least one). -/
def splitDotGo : PyStr → PyStr → List PyStr
  | acc, [] => [acc.reverse]
  | acc, c :: cs =>
    if c = '.' then acc.reverse :: splitDotGo [] cs else splitDotGo (c :: acc) cs

/-- Python `str.split('.')`. -/
def pySplitDot (l : PyStr) : List PyStr := splitDotGo [] l

/-- Python `', '.join(xs)`. -/
def pyJoinComma (xs : List PyStr) : PyStr := List.intercalate (", ").data xs

/-- The netloc text `urllib.parse.urlparse` computes, before its bracket
validity check, for the URL shapes this code feeds it: the text after the
first `//`, up to the next `/`, `?` or `#` (empty when the URL has no
`//`). -/
def netlocOf : PyStr → PyStr
  | [] => []
  | c :: cs =>
    if c = '/' ∧ cs.take 1 = ['/'] then
      (cs.drop 1).takeWhile fun d => !(d == '/' || d == '?' || d == '#')
    else netlocOf cs

/-- CPython `urlsplit`'s IPv6 bracket test: the netloc holds one of `[`
and `]` without the other. -/
def bracketMismatch (n : PyStr) : Prop :=
  ('[' ∈ n ∧ ']' ∉ n) ∨ (']' ∈ n ∧ '[' ∉ n)

instance (n : PyStr) : Decidable (bracketMismatch n) := by
  unfold bracketMismatch
  exact inferInstance

/-- `urllib.parse.urlparse(url).netloc` with its raise: CPython's
`urlsplit` raises `ValueError('Invalid IPv6 URL')` when the netloc has a
mismatched bracket, and returns the netloc otherwise. -/
def urlparseNetloc (url : PyStr) : Except PyStr PyStr :=
  if bracketMismatch (netlocOf url) then .error ("Invalid IPv6 URL").data
  else .ok (netlocOf url)

/-- Python `dict` lookup (`d.get(k)` / `k in d`), the dictionary modelled
as an association list. -/
def pyDictGet (m : List (PyStr × PyStr)) (k : PyStr) : Option PyStr :=
  match m with
  | [] => none
  | (k', v) :: rest => if k = k' then some v else pyDictGet rest k

/-- The `legacy_mappings` table hardcoded in
`ArticleScraper.extract_publication_name` (src/article_scraper.py). -/
def legacyMappings : List (PyStr × PyStr) :=
  [(("nytimes").data, ("The New York Times").data),
   (("wsj").data, ("The Wall Street Journal").data),
   (("ft").data, ("Financial Times").data),
   (("bbc").data, ("BBC News").data),
   (("cnn").data, ("CNN").data),
   (("reuters").data, ("Reuters").data),
   (("bloomberg").data, ("Bloomberg").data),
   (("theguardian").data, ("The Guardian").data),
   (("washingtonpost").data, ("The Washington Post").data),
   (("economist").data, ("The Economist").data),
   (("forbes").data, ("Forbes").data),
   (("businessinsider").data, ("Business Insider").data),
   (("techcrunch").data, ("TechCrunch").data),
   (("wired").data, ("Wired").data),
   (("vox").data, ("Vox").data),
   (("politico").data, ("Politico").data),
   (("axios").data, ("Axios").data),
   (("theatlantic").data, ("The Atlantic").data),
   (("newyorker").data, ("The New Yorker").data),
   (("buzzfeed").data, ("BuzzFeed").data),
   (("huffpost").data, ("HuffPost").data),
   (("slate").data, ("Slate").data),
   (("salon").data, ("Salon").data),
   (("thedailybeast").data, ("The Daily Beast").data),
   (("thehill").data, ("The Hill").data),
   (("motherjones").data, ("Mother Jones").data),
   (("theintercept").data, ("The Intercept").data),
   (("propublica").data, ("ProPublica").data),
   (("apnews").data, ("Associated Press").data),
   (("npr").data, ("NPR").data),
   (("cbsnews").data, ("CBS News").data),
   (("nbcnews").data, ("NBC News").data),
   (("abcnews").data, ("ABC News").data),
   (("foxnews").data, ("Fox News").data),
   (("usatoday").data, ("USA Today").data),
   (("latimes").data, ("Los Angeles Times").data),
   (("chicagotribune").data, ("Chicago Tribune").data),
   (("bostonglobe").data, ("The Boston Globe").data),
   (("seattletimes").data, ("The Seattle Times").data),
   (("denverpost").data, ("The Denver Post").data),
   (("miamiherald").data, ("Miami Herald").data),
   (("startribune").data, ("Star Tribune").data),
   (("dallasnews").data, ("The Dallas Morning News").data),
   (("sfchronicle").data, ("San Francisco Chronicle").data),
   (("newsweek").data, ("Newsweek").data),
   (("time").data, ("TIME").data),
   (("fortune").data, ("Fortune").data),
   (("cnbc").data, ("CNBC").data),
   (("marketwatch").data, ("MarketWatch").data),
   (("barrons").data, ("Barron's").data),
   (("investopedia").data, ("Investopedia").data),
   (("morningstar").data, ("Morningstar").data),
   (("seekingalpha").data, ("Seeking Alpha").data),
   (("benzinga").data, ("Benzinga").data),
   (("thestreet").data, ("TheStreet").data)]

/-- The `prefixes_to_remove` list of `extract_publication_name`. -/
def prefixesToRemove : List PyStr :=
  [("www.").data, ("edition.").data, ("amp.").data, ("m.").data,
   ("mobile.").data, ("news.").data]

/-- The prefix-stripping loop of `extract_publication_name`: strip each
listed prefix in turn from the running domain when it matches, checking
the mapping after each strip and returning its entry at the first hit;
also yields the final cleaned domain. -/
def stripPrefixLoop (mappings : List (PyStr × PyStr)) :
    List PyStr → PyStr → Option PyStr × PyStr
  | [], clean => (none, clean)
  | p :: ps, clean =>
    if p <+: clean then
      let clean2 := clean.drop p.length
      match pyDictGet mappings clean2 with
      | some v => (some v, clean2)
      | none => stripPrefixLoop mappings ps clean2
    else stripPrefixLoop mappings ps clean

/-- The body of `ArticleScraper.extract_publication_name`
(src/article_scraper.py) over the parsed `domain =
urlparse(url).netloc`: exact lookup, `www.`-strip and `www.`-add lookups,
the prefix loop, the legacy table, and the title-cased fallback. -/
def extractPublicationFromDomain (mappings : List (PyStr × PyStr))
    (domain : PyStr) : PyStr :=
  match pyDictGet mappings domain with
  | some v => v
  | none =>
    match pyDictGet mappings (replaceAll ("www.").data [] domain) with
    | some v => v
    | none =>
      match
        (if ¬ ("www.").data <+: domain then
          pyDictGet mappings (("www.").data ++ domain)
        else none) with
      | some v => v
      | none =>
        match stripPrefixLoop mappings prefixesToRemove domain with
        | (some v, _) => v
        | (none, cleanDomain) =>
          if 2 ≤ (pySplitDot cleanDomain).length then
            match pyDictGet legacyMappings (pyLower (pySplitDot cleanDomain).headI) with
            | some v => v
            | none =>
              pyTitle (replaceAll ['_'] [' ']
                (replaceAll ['-'] [' '] (pySplitDot cleanDomain).headI))
          else pyTitle cleanDomain

/-- `ArticleScraper.extract_publication_name` (src/article_scraper.py).
The JSON-loaded publication table is external data (the JSON file is not
among the sources), so it is the parameter `mappings`; the repository
falls back to the empty table when the file is absent.  Its `try/except`
catches the `urlparse` raise on a mismatched-bracket netloc and returns
the empty string; the body raises nowhere else. -/
def extractPublicationName (mappings : List (PyStr × PyStr)) (url : PyStr) :
    PyStr :=
  match urlparseNetloc url with
  | .error _ => []
  | .ok domain => extractPublicationFromDomain mappings domain

/-- The fixed `paywall_domains` list of `scrape_article`. -/
def paywallDomains : List PyStr :=
  [("wsj.com").data, ("ft.com").data, ("economist.com").data,
   ("telegraph.co.uk").data, ("thetimes.co.uk").data, ("hbr.org").data,
   ("theatlantic.com").data, ("foreignaffairs.com").data,
   ("seekingalpha.com").data, ("barrons.com").data, ("investors.com").data,
   ("nytimes.com").data, ("washingtonpost.com").data, ("bloomberg.com").data,
   ("businessinsider.com").data, ("wired.com").data]

/-- Outcome of one call into an external library: the returned value, or
the message of the exception it raised. -/
abbrev LibCall (α : Type) := Except PyStr α

/-- Externally supplied outcomes consumed by one `scrape_article` run:
what each third-party library call would do for the given URL. -/
structure ScrapeEnv where
  /-- `trafilatura.fetch_url(url)`: content, `None`, or raise. -/
  trafFetch : LibCall (Option PyStr)
  /-- `trafilatura.extract(downloaded, ...)`: text, `None`, or raise. -/
  trafExtract : LibCall (Option PyStr)
  /-- `trafilatura.extract_metadata(downloaded)`: an optional record with
  title and author strings, or raise. -/
  trafMeta : LibCall (Option (PyStr × PyStr))
  /-- `article.download()` (newspaper library): unit or raise. -/
  newsDownload : LibCall Unit
  /-- `article.parse()`: unit or raise. -/
  newsParse : LibCall Unit
  /-- `article.text` after parsing. -/
  newsText : PyStr
  /-- `article.title`. -/
  newsTitle : PyStr
  /-- `article.authors`. -/
  newsAuthors : List PyStr

/-- The `text/title/author/publication` row built by either scraping
helper. -/
structure ScrapedFields where
  text : PyStr
  title : PyStr
  author : PyStr
  publication : PyStr
deriving DecidableEq

/-- `ArticleScraper.scrape_with_trafilatura` (src/article_scraper.py).
The body sits in a catch-all `try`, so a raise from any of the three
library calls (an `.error` outcome) yields `None`, as do a missing
download and empty extracted text. -/
def scrapeWithTrafilatura (mappings : List (PyStr × PyStr)) (url : PyStr)
    (env : ScrapeEnv) : Option ScrapedFields :=
  match env.trafFetch with
  | .error _ => none
  | .ok downloaded =>
    if downloaded = none ∨ downloaded = some [] then none
    else
      match env.trafExtract with
      | .error _ => none
      | .ok none => none
      | .ok (some text) =>
        if text = [] then none
        else
          match env.trafMeta with
          | .error _ => none
          | .ok meta =>
            some
              { text := text
                title := match meta with
                  | some md => if md.1 ≠ [] then md.1 else []
                  | none => []
                author := match meta with
                  | some md => if md.2 ≠ [] then md.2 else []
                  | none => []
                publication := extractPublicationName mappings url }

/-- `ArticleScraper.scrape_with_newspaper` (src/article_scraper.py).
Catch-all `try` around download and parse (a raise yields `None`); `None`
also when the parsed text is empty or its stripped length is below 100. -/
def scrapeWithNewspaper (mappings : List (PyStr × PyStr)) (url : PyStr)
    (env : ScrapeEnv) : Option ScrapedFields :=
  match env.newsDownload with
  | .error _ => none
  | .ok _ =>
    match env.newsParse with
    | .error _ => none
    | .ok _ =>
      if env.newsText = [] ∨ (pyStrip env.newsText).length < 100 then none
      else
        some
          { text := env.newsText
            title := if env.newsTitle ≠ [] then env.newsTitle else []
            author := if env.newsAuthors ≠ [] then pyJoinComma env.newsAuthors
              else []
            publication := extractPublicationName mappings url }

/-- The dictionary returned by `scrape_article`; a key the source leaves
out of the dictionary is `none`. -/
structure ScrapeResult where
  success : Bool
  text : Option PyStr := none
  title : Option PyStr := none
  author : Option PyStr := none
  publication : Option PyStr := none
  method : Option PyStr := none
  paywall_warning : Option Bool := none
  error : Option PyStr := none
deriving DecidableEq

/-- The scheme check of `scrape_article`:
`url.startswith(('http://', 'https://'))`. -/
def validScheme (url : PyStr) : Prop :=
  ("http://").data <+: url ∨ ("https://").data <+: url

instance (url : PyStr) : Decidable (validScheme url) := by
  unfold validScheme
  exact inferInstance

/-- The `is_likely_paywalled` test of `scrape_article`: one of the fixed
paywall domains occurs in the `www.`-stripped netloc. -/
def likelyPaywalled (url : PyStr) : Bool :=
  paywallDomains.any fun p =>
    decide (p <:+: replaceAll ("www.").data [] (netlocOf url))

/-- The success dictionary `scrape_article` builds from either scraper's
fields. -/
def successDict (methodName : PyStr) (pw : Bool) (r : ScrapedFields) :
    ScrapeResult :=
  { success := true, text := some r.text, title := some r.title,
    author := some r.author, publication := some r.publication,
    method := some methodName, paywall_warning := some pw }

/-- The dictionary `scrape_article` returns for a non-http(s) URL; note it
carries no `publication` key. -/
def validationFailureDict : ScrapeResult :=
  { success := false
    error := some ("Please enter a valid URL starting with http:// or https://").data }

/-- The both-methods-failed dictionary of `scrape_article`, with the
paywall-aware guidance message and the resolved publication. -/
def bothFailedDict (mappings : List (PyStr × PyStr)) (url : PyStr) :
    ScrapeResult :=
  { success := false
    error := some
      (("Unable to extract article content from this URL. ").data ++
        (if likelyPaywalled url then
          ("This site often has paywalled content. Please copy and paste the article text manually if you have access.").data
        else
          ("The page might be behind a paywall, use dynamic content loading, or have an unusual structure. Please copy and paste the article text manually.").data))
    publication := some (extractPublicationName mappings url) }

/-- The newspaper-fallback tail of `scrape_article`: try the secondary
scraper, else return the both-failed dictionary. -/
def scrapeSecondary (mappings : List (PyStr × PyStr)) (url : PyStr)
    (env : ScrapeEnv) : ScrapeResult :=
  match scrapeWithNewspaper mappings url env with
  | some r =>
    if r.text ≠ [] then successDict ("newspaper4k").data (likelyPaywalled url) r
    else bothFailedDict mappings url
  | none => bothFailedDict mappings url

/-- `ArticleScraper.scrape_article` (src/article_scraper.py) on the runs
where its uncaught `urlparse(url)` call (line 268) returns: validate the
scheme, try trafilatura, then fall back to newspaper
(`scrapeSecondary`). -/
def scrapeArticle (mappings : List (PyStr × PyStr)) (url : PyStr)
    (env : ScrapeEnv) : ScrapeResult :=
  if url = [] ∨ ¬ validScheme url then validationFailureDict
  else
    match scrapeWithTrafilatura mappings url env with
    | some r =>
      if r.text ≠ [] then successDict ("trafilatura").data (likelyPaywalled url) r
      else scrapeSecondary mappings url env
    | none => scrapeSecondary mappings url env

/-- `ArticleScraper.scrape_article` as actually run: after the scheme
check, the `urlparse(url)` call at src/article_scraper.py line 268 sits
outside any `try`, so its `ValueError` on a mismatched-bracket netloc
propagates to the caller; otherwise the body (`scrapeArticle`) runs, and
it raises nowhere. -/
def scrapeArticleRun (mappings : List (PyStr × PyStr)) (url : PyStr)
    (env : ScrapeEnv) : Except PyStr ScrapeResult :=
  if url = [] ∨ ¬ validScheme url then .ok validationFailureDict
  else
    match urlparseNetloc url with
    | .error e => .error e
    | .ok _ => .ok (scrapeArticle mappings url env)

/-- A concrete environment in which every library call fails to produce
content, used for closed evaluations. -/
def stubScrapeEnv : ScrapeEnv :=
  { trafFetch := .ok none, trafExtract := .ok none, trafMeta := .ok none,
    newsDownload := .ok (), newsParse := .ok (),
    newsText := [], newsTitle := [], newsAuthors := [] }

/-- A concrete environment in which both libraries raise. -/
def raisingScrapeEnv : ScrapeEnv :=
  { trafFetch := .error ("connection reset").data,
    trafExtract := .error ("connection reset").data,
    trafMeta := .error ("connection reset").data,
    newsDownload := .error ("HTTP 403").data,
    newsParse := .error ("HTTP 403").data,
    newsText := [], newsTitle := [], newsAuthors := [] }

/-- A concrete environment in which trafilatura extracts text. -/
def trafOkScrapeEnv : ScrapeEnv :=
  { trafFetch := .ok (some ("<html>body</html>").data),
    trafExtract := .ok (some ("The article body.").data),
    trafMeta := .ok (some (("A Title").data, ("An Author").data)),
    newsDownload := .ok (), newsParse := .ok (),
    newsText := [], newsTitle := [], newsAuthors := [] }

/-- A concrete environment in which only newspaper succeeds, parsing 120
characters of text. -/
def newsOkScrapeEnv : ScrapeEnv :=
  { trafFetch := .ok none, trafExtract := .ok none, trafMeta := .ok none,
    newsDownload := .ok (), newsParse := .ok (),
    newsText := List.replicate 120 'a', newsTitle := ("T").data,
    newsAuthors := [("A").data] }

/-- The `lang_map` ISO-code table of `ArticleSummarizer.detect_language`
(src/summarizer.py). -/
def langMap : List (PyStr × PyStr) :=
  [   ((("en").data), (("English").data)),
   ((("es").data), (("Spanish").data)),
   ((("fr").data), (("French").data)),
   ((("de").data), (("German").data)),
   ((("it").data), (("Italian").data)),
   ((("pt").data), (("Portuguese").data)),
   ((("nl").data), (("Dutch").data)),
   ((("pl").data), (("Polish").data)),
   ((("ru").data), (("Russian").data)),
   ((("zh").data), (("Chinese").data)),
   ((("ja").data), (("Japanese").data)),
   ((("ko").data), (("Korean").data)),
   ((("ar").data), (("Arabic").data)),
   ((("he").data), (("Hebrew").data)),
   ((("hi").data), (("Hindi").data)),
   ((("tr").data), (("Turkish").data)),
   ((("sv").data), (("Swedish").data)),
   ((("da").data), (("Danish").data)),
   ((("no").data), (("Norwegian").data)),
   ((("fi").data), (("Finnish").data)),
   ((("el").data), (("Greek").data)),
   ((("cs").data), (("Czech").data)),
   ((("hu").data), (("Hungarian").data)),
   ((("ro").data), (("Romanian").data)),
   ((("bg").data), (("Bulgarian").data)),
   ((("uk").data), (("Ukrainian").data)),
   ((("vi").data), (("Vietnamese").data)),
   ((("th").data), (("Thai").data)),
   ((("id").data), (("Indonesian").data)),
   ((("ms").data), (("Malay").data)),
   ((("fa").data), (("Persian").data)),
   ((("ur").data), (("Urdu").data)),
   ((("bn").data), (("Bengali").data)),
   ((("ta").data), (("Tamil").data)),
   ((("te").data), (("Telugu").data)),
   ((("ml").data), (("Malayalam").data)),
   ((("ca").data), (("Catalan").data)),
   ((("eu").data), (("Basque").data)),
   ((("gl").data), (("Galician").data)),
   ((("hr").data), (("Croatian").data)),
   ((("sr").data), (("Serbian").data)),
   ((("sk").data), (("Slovak").data)),
   ((("sl").data), (("Slovenian").data)),
   ((("lt").data), (("Lithuanian").data)),
   ((("lv").data), (("Latvian").data)),
   ((("et").data), (("Estonian").data)),
   ((("mk").data), (("Macedonian").data)),
   ((("sq").data), (("Albanian").data)),
   ((("hy").data), (("Armenian").data)),
   ((("ka").data), (("Georgian").data)),
   ((("az").data), (("Azerbaijani").data)),
   ((("kk").data), (("Kazakh").data)),
   ((("uz").data), (("Uzbek").data)),
   ((("tg").data), (("Tajik").data)),
   ((("ky").data), (("Kyrgyz").data)),
   ((("tt").data), (("Tatar").data)),
   ((("ba").data), (("Bashkir").data)),
   ((("cv").data), (("Chuvash").data)),
   ((("ce").data), (("Chechen").data)),
   ((("mn").data), (("Mongolian").data)),
   ((("ne").data), (("Nepali").data)),
   ((("si").data), (("Sinhala").data)),
   ((("km").data), (("Khmer").data)),
   ((("lo").data), (("Lao").data)),
   ((("my").data), (("Burmese").data)),
   ((("am").data), (("Amharic").data)),
   ((("ti").data), (("Tigrinya").data)),
   ((("yo").data), (("Yoruba").data)),
   ((("sw").data), (("Swahili").data)),
   ((("zu").data), (("Zulu").data)),
   ((("xh").data), (("Xhosa").data)),
   ((("af").data), (("Afrikaans").data)),
   ((("cy").data), (("Welsh").data)),
   ((("ga").data), (("Irish").data)),
   ((("gd").data), (("Scottish Gaelic").data)),
   ((("is").data), (("Icelandic").data)),
   ((("mt").data), (("Maltese").data)),
   ((("lb").data), (("Luxembourgish").data)),
   ((("tl").data), (("Tagalog").data)),
   ((("haw").data), (("Hawaiian").data)),
   ((("sm").data), (("Samoan").data)),
   ((("mg").data), (("Malagasy").data)),
   ((("la").data), (("Latin").data))]

/-- The keyword table behind the language-name normalization chain of the
Claude-API fallback in `detect_language` (src/summarizer.py): one row per
`elif` branch, in source order, keyed by the English name and native
spellings whose occurrence in the lowercased reply selects the canonical
display name. -/
def langNormTable : List (List PyStr × PyStr) :=
  [   ([(("english").data)], (("English").data)),
   ([(("spanish").data), (("español").data)], (("Spanish").data)),
   ([(("french").data), (("français").data)], (("French").data)),
   ([(("german").data), (("deutsch").data)], (("German").data)),
   ([(("italian").data), (("italiano").data)], (("Italian").data)),
   ([(("portuguese").data), (("português").data)], (("Portuguese").data)),
   ([(("dutch").data), (("nederlands").data)], (("Dutch").data)),
   ([(("chinese").data), (("中文").data)], (("Chinese").data)),
   ([(("japanese").data), (("日本語").data)], (("Japanese").data)),
   ([(("korean").data), (("한국어").data)], (("Korean").data)),
   ([(("arabic").data), (("عربي").data)], (("Arabic").data)),
   ([(("russian").data), (("русский").data)], (("Russian").data)),
   ([(("polish").data), (("polski").data)], (("Polish").data)),
   ([(("hebrew").data), (("עברית").data)], (("Hebrew").data)),
   ([(("hindi").data), (("हिन्दी").data)], (("Hindi").data))]

/-- The language-name normalization chain itself: the first row with a
keyword occurring in the lowercased reply wins (the source checks the
branches in this order), otherwise the reply is kept unchanged. -/
def normalizeLanguageName (language : PyStr) : PyStr :=
  match langNormTable.find?
      (fun e => e.1.any fun kw => decide (kw <:+: pyLower language)) with
  | some e => e.2
  | none => language

/-- The language-information dictionary (`LanguageInfo` of the spec).  The
confidence score of the fast detector is an opaque float, modelled by the
type parameter. -/
structure LangInfo (σ : Type) where
  language : PyStr
  is_english : Bool
  confidence : Option σ := none
  method : PyStr
  error : Option PyStr := none

/-- External outcomes consumed by one `detect_language` run. -/
structure LangDetectEnv (σ : Type) where
  /-- `FAST_LANGDETECT_AVAILABLE`: whether the import succeeded. -/
  fastAvailable : Bool
  /-- `fast_detect(clean_text, low_memory=True)`: the `lang`/`score`
  record, or raise. -/
  fastDetect : LibCall (PyStr × σ)
  /-- The Claude call of the fallback with `_extract_claude_content`
  applied (which never raises): the reply text, or the raise from
  `messages.create`. -/
  llmDetect : LibCall PyStr

/-- `ArticleSummarizer.detect_language` (src/summarizer.py): raise on
empty text; fast local detection when available and successful; otherwise
the Claude fallback with name normalization; on a Claude failure the
English default carrying the error message. -/
def detectLanguage {σ : Type} (env : LangDetectEnv σ) (article_text : PyStr) :
    Except PyStr (LangInfo σ) :=
  if article_text = [] then
    .error ("Article text is required for language detection").data
  else
    match (if env.fastAvailable then some env.fastDetect else none) with
    | some (.ok (rawLang, score)) =>
      .ok { language := (pyDictGet langMap (pyLower rawLang)).getD
              (pyUpper (pyLower rawLang))
            is_english := pyLower rawLang == ("en").data
            confidence := some score
            method := ("fast-langdetect").data }
    | _ =>
      match env.llmDetect with
      | .ok response_text =>
        .ok { language := normalizeLanguageName
                (pyStrip (cleanResponse response_text))
              is_english :=
                pyLower (normalizeLanguageName
                  (pyStrip (cleanResponse response_text))) == ("english").data
              method := ("claude-api").data }
      | .error e =>
        .ok { language := ("English").data, is_english := true
              method := ("default").data, error := some e }

/-- A concrete detection environment in which both detection stages
fail. -/
def failingLangEnv : LangDetectEnv Unit :=
  { fastAvailable := true, fastDetect := .error ("model file missing").data,
    llmDetect := .error ("rate limited").data }

/-- Decimal digits worker for Python `str(n)`; fuel-bounded (the `0` case
is dead code at the call site's fuel). -/
def natDigitsGo : Nat → Nat → PyStr
  | 0, _ => []
  | fuel + 1, n =>
    if n < 10 then [Char.ofNat (48 + n)]
    else natDigitsGo fuel (n / 10) ++ [Char.ofNat (48 + n % 10)]

/-- Python `str(n)` for a natural number. -/
def natRepr (n : Nat) : PyStr := natDigitsGo (n + 1) n

/-- Python `str(x)` on an optional string argument: `None` prints as
`None`. -/
def optStr : Option PyStr → PyStr
  | none => ("None").data
  | some s => s

/-- The `NO_ROLE` sentinel of the op-ed role-extraction call. -/
def roleSentinel : PyStr := ("NO_ROLE").data

/-- The `instruction_text` clause of `get_summary` (src/summarizer.py):
appended only when `specific_instructions` is truthy. -/
def instructionText : Option PyStr → PyStr
  | some s =>
    if s ≠ [] then
      (" Pay special attention to the following aspects: ").data ++ s ++
        (".").data
    else []
  | none => []

/-- `ArticleSummarizer._build_client_mention_context` (src/summarizer.py):
three weight tiers — exactly one mention, two or three, four or more. -/
def buildClientMentionContext (client_name : PyStr) (mention_count : Nat) :
    PyStr :=
  if client_name = [] ∨ mention_count = 0 then []
  else if mention_count = 1 then
    ("\n\nIMPORTANT: The client '").data ++ client_name ++
      ("' is mentioned once in this article. You must accurately reflect this single mention in the summary with appropriate context. If the mention is brief or peripheral, do not overemphasise it (especially not in the first sentence). If '").data ++
      client_name ++
      ("' is central to the story, position it appropriately. Be accurate about HOW '").data ++
      client_name ++ ("' is described or referenced in the article.").data
  else if mention_count ≤ 3 then
    ("\n\nIMPORTANT: The client '").data ++ client_name ++
      ("' is mentioned ").data ++ natRepr mention_count ++
      (" times in this article. You must accurately reflect these mentions in the summary with appropriate weight and context. If the mentions are brief or peripheral, do not overemphasise them. If '").data ++
      client_name ++
      ("' is central to the story, ensure this is clear in the summary. Be accurate about HOW '").data ++
      client_name ++
      ("' is described or referenced, maintaining the article's perspective.").data
  else
    ("\n\nIMPORTANT: The client '").data ++ client_name ++
      ("' is mentioned ").data ++ natRepr mention_count ++
      (" times in this article, suggesting they are likely a significant element of the story. You must accurately reflect '").data ++
      client_name ++
      ("'s prominence in the summary while maintaining overall balance. If '").data ++
      client_name ++
      ("' is the main focus, this should be clear (potentially in the first sentence). If they are one of several key elements, position them appropriately. Be precise about HOW '").data ++
      client_name ++
      ("' is described, what role they play, and maintain the article's tone and perspective.").data

/-- The `client_context` clause of `get_summary`: built only when both the
client name and the mention count are truthy. -/
def clientContextOf : Option PyStr → Option Nat → PyStr
  | some cn, some cnt =>
    if cn ≠ [] ∧ cnt ≠ 0 then buildClientMentionContext cn cnt else []
  | _, _ => []

/-- The English-article spelling instruction of `get_summary`. -/
def spellingInstructionEnglish : PyStr :=
  ("Use British English spelling conventions (e.g., 'colour', 'realise', 'centre', 'organisation') but preserve all other details exactly as they appear in the original article, including currencies, locations, measurements, and proper nouns. Do not convert currencies to pounds or change any factual details.").data

/-- The non-English-article spelling instruction of `get_summary`, which
embeds the detected language name. -/
def spellingInstructionNonEnglish (detected_language : PyStr) : PyStr :=
  ("IMPORTANT: This article is written in ").data ++ detected_language ++
    (". The summary MUST translate the content to English and use British English spelling conventions (e.g., 'colour', 'realise', 'centre', 'organisation') in your summary. However, preserve proper nouns, currencies, and specific terms exactly as they appear. Do not convert currencies or change any factual details, just translate the text to British English.").data

/-- The spelling clause chosen from the detected-language record. -/
def spellingFor {σ : Type} (info : LangInfo σ) : PyStr :=
  if info.is_english then spellingInstructionEnglish
  else spellingInstructionNonEnglish info.language

/-- The news user prompt of `get_summary`. -/
def newsUserPrompt (n : Nat) (spelling instr ctx publication article_text :
    PyStr) : PyStr :=
  ("Summarise this news article in ").data ++ natRepr n ++
    (" *short* sentences. ").data ++ spelling ++
    (" Be specific where applicable. Full sentences only, no lists.").data ++
    instr ++ ctx ++ (" You MUST begin with '").data ++ publication ++
    (" reports that'\n\nArticle: ").data ++ article_text

/-- The interview user prompt of `get_summary`. -/
def interviewUserPrompt (n : Nat) (spelling instr ctx publication author
    article_text : PyStr) : PyStr :=
  ("Summarise this interview article in ").data ++ natRepr n ++
    (" *concise* SHORT sentences that flow. ").data ++ spelling ++
    (" Do NOT use 'we' in the summary. Be specific where applicable.").data ++
    instr ++ ctx ++
    (" For your first sentence: Begin with '").data ++ publication ++
    (" carries an interview with ").data ++ author ++
    ("' and include a brief overview of the main topic discussed. For remaining ").data ++
    natRepr (n - 1) ++
    (" sentences, begin these sentences like  '[author last name] argues/highlights/describes/discusses/notes/cites that'.\n\nArticle: ").data ++
    article_text

/-- The op-ed user prompt of `get_summary`. -/
def opEdUserPrompt (n : Nat) (spelling instr ctx publication author_intro
    article_text : PyStr) : PyStr :=
  ("Summarise this op-ed article in ").data ++ natRepr n ++
    (" *concise* SHORT sentences that flow. ").data ++ spelling ++
    (" Do NOT use 'we' in the summary. Be specific where applicable.").data ++
    instr ++ ctx ++
    (" For your first sentence: Begin with '").data ++ publication ++
    (" carries an op-ed by ").data ++ author_intro ++
    ("' and include a brief overview of their main argument. For remaining ").data ++
    natRepr (n - 1) ++
    (" sentences, begin these sentences like  '[author last name] argues/highlights/describes/discusses/notes/cites that'.\n\nArticle: ").data ++
    article_text

/-- The feature user prompt of `get_summary`. -/
def featureUserPrompt (n : Nat) (spelling instr ctx publication article_text :
    PyStr) : PyStr :=
  ("Summarise this feature article in ").data ++ natRepr n ++
    (" *concise* quite SHORT sentences that flow. ").data ++ spelling ++
    (" Where applicable begin sentences like 'The article (also) highlights/cites/notes/discusses/examines/suggests'. Do NOT use 'we' in the summary. Be specific where applicable and make sure to convey the broad points of the piece in the summary.").data ++
    instr ++ ctx ++ (" You MUST begin with '").data ++ publication ++
    (" carries a feature'\n\nArticle: ").data ++ article_text

/-- The op-ed `author_intro` computation of `get_summary`
(src/summarizer.py lines 508-538): the auxiliary role call sits in a
`try/except` whose handler falls back to the bare author name; a falsy or
`NO_ROLE` reply also yields the bare name; otherwise the author's name is
removed from the role text, whitespace and stray commas are stripped, and
`"{author}, {role}"` is built. -/
def opEdAuthorIntro (author : PyStr) (roleOutcome : LibCall PyStr) : PyStr :=
  match roleOutcome with
  | .error _ => author
  | .ok content =>
    if pyStrip content ≠ [] ∧ pyStrip content ≠ ("NO_ROLE").data then
      author ++ (", ").data ++
        pyStripChars (" ,").data
          (pyStrip (replaceAll author [] (pyStrip content)))
    else author

/-- External outcomes consumed by one `get_summary` run. -/
structure SummaryEnv (σ : Type) where
  /-- The outcomes feeding the inner `detect_language` call. -/
  lang : LangDetectEnv σ
  /-- The op-ed role-extraction completion (with
  `_extract_claude_content`, which never raises, applied): reply text or
  raise. -/
  roleCall : LibCall PyStr
  /-- The main summary completion, likewise. -/
  mainCall : LibCall PyStr

/-- The user prompt `get_summary` sends to the main completion, selected
by article type. -/
def summaryUserPrompt {σ : Type} (env : SummaryEnv σ)
    (article_text publication article_type : PyStr) (author : Option PyStr)
    (specific_instructions : Option PyStr) (sentence_count : Nat)
    (client_name : Option PyStr) (client_mention_count : Option Nat)
    (language_info : LangInfo σ) : PyStr :=
  if article_type = ("news").data then
    newsUserPrompt sentence_count (spellingFor language_info)
      (instructionText specific_instructions)
      (clientContextOf client_name client_mention_count)
      publication article_text
  else if article_type = ("interview").data then
    interviewUserPrompt sentence_count (spellingFor language_info)
      (instructionText specific_instructions)
      (clientContextOf client_name client_mention_count)
      publication (optStr author) article_text
  else if article_type = ("op-ed").data then
    opEdUserPrompt sentence_count (spellingFor language_info)
      (instructionText specific_instructions)
      (clientContextOf client_name client_mention_count)
      publication (opEdAuthorIntro (optStr author) env.roleCall) article_text
  else
    featureUserPrompt sentence_count (spellingFor language_info)
      (instructionText specific_instructions)
      (clientContextOf client_name client_mention_count)
      publication article_text

/-- `ArticleSummarizer.get_summary` (src/summarizer.py): the three
validations, the inner language detection, prompt construction
(`summaryUserPrompt`), and the main completion call whose raise is
re-raised with the `Error getting summary from Claude: ` prefix. -/
def getSummary {σ : Type} (env : SummaryEnv σ)
    (article_text publication article_type : PyStr) (author : Option PyStr)
    (specific_instructions : Option PyStr) (sentence_count : Nat)
    (client_name : Option PyStr) (client_mention_count : Option Nat) :
    Except PyStr PyStr :=
  if article_text = [] ∨ publication = [] then
    .error ("Article text and publication name are required").data
  else if article_type = ("op-ed").data ∧ (author = none ∨ author = some [])
      then
    .error ("Author name is required for op-ed articles").data
  else if ¬ (2 ≤ sentence_count ∧ sentence_count ≤ 6) then
    .error ("Sentence count must be between 2 and 6").data
  else
    match detectLanguage env.lang article_text with
    | .error e => .error e
    | .ok language_info =>
      let _prompt := summaryUserPrompt env article_text publication
        article_type author specific_instructions sentence_count
        client_name client_mention_count language_info
      match env.mainCall with
      | .ok response => .ok (cleanResponse response)
      | .error e =>
        .error (("Error getting summary from Claude: ").data ++ e)

/-- A concrete summarizer environment in which detection and completion
succeed. -/
def okSummaryEnv : SummaryEnv Unit :=
  { lang := { fastAvailable := true, fastDetect := .ok ((("en").data), ()),
              llmDetect := .error [] },
    roleCall := .ok (("NO_ROLE").data),
    mainCall := .ok (("A summary.").data) }

/-- Definitional equation for `cleanResponse`, for cheap syntactic
rewriting. -/
theorem cleanResponse_def (s : PyStr) :
    cleanResponse s = pyStrip (collapseWs (preCleanResponse s)) := rfl

/-- Definitional equation for `preCleanResponse`, for cheap syntactic
rewriting. -/
theorem preCleanResponse_def (s : PyStr) :
    preCleanResponse s =
      replaceAll ['\r'] [' ']
        (replaceAll ['\n'] [' ']
          (replaceAll ('\r' :: '\n' :: []) [' ']
            (replaceAll tbCloseLit []
              (replaceAll tbOpenLit []
                (fixApiResponseEncoding
                  (if tbMarker <:+: s then
                    match searchTextQuote s with
                    | some grp => grp
                    | none => s
                  else s)))))) := rfl

theorem collapseWsGo_nil (fuel : Nat) : collapseWsGo fuel [] = [] := by
  cases fuel <;> rfl

theorem replaceAllGo_of_not_infix (pat rep : PyStr) :
    ∀ (fuel : Nat) (l : PyStr), l.length ≤ fuel → ¬ pat <:+: l →
      replaceAllGo pat rep fuel l = l := by
  intro fuel
  induction fuel with
  | zero =>
    intro l hl _
    have : l = [] := List.eq_nil_of_length_eq_zero (Nat.le_zero.mp hl)
    subst this
    rfl
  | succ n ih =>
    intro l hl hni
    cases l with
    | nil => rfl
    | cons c cs =>
      have hnp : ¬(pat ≠ [] ∧ pat <+: (c :: cs)) := by
        rintro ⟨-, hp⟩
        exact hni hp.isInfix
      rw [replaceAllGo, if_neg hnp]
      have hcs : cs.length ≤ n := by
        simp only [List.length_cons] at hl
        omega
      have hni' : ¬ pat <:+: cs := fun h => hni (List.infix_cons_iff.mpr (Or.inr h))
      rw [ih cs hcs hni']

theorem replaceAll_of_not_infix {pat : PyStr} (rep : PyStr) {l : PyStr}
    (h : ¬ pat <:+: l) : replaceAll pat rep l = l :=
  replaceAllGo_of_not_infix pat rep l.length l le_rfl h

theorem mem_collapseWsGo :
    ∀ (fuel : Nat) (l : PyStr) (c : Char),
      c ∈ collapseWsGo fuel l → isPySpace c = true → c = ' ' := by
  intro fuel
  induction fuel with
  | zero => intro l c hc _; simp [collapseWsGo] at hc
  | succ n ih =>
    intro l c hc hs
    cases l with
    | nil => simp [collapseWsGo] at hc
    | cons a cs =>
      rw [collapseWsGo] at hc
      by_cases ha : isPySpace a = true
      · rw [if_pos ha] at hc
        rcases List.mem_cons.mp hc with h | h
        · exact h
        · exact ih _ c h hs
      · rw [if_neg ha] at hc
        rcases List.mem_cons.mp hc with h | h
        · subst h; exact absurd hs ha
        · exact ih _ c h hs

theorem head?_dropWhile_false (p : Char → Bool) :
    ∀ (m : PyStr) (e : Char), (m.dropWhile p).head? = some e → p e = false := by
  intro m
  induction m with
  | nil => intro e h; simp at h
  | cons a as ih =>
    intro e h
    rw [List.dropWhile_cons] at h
    by_cases hp : p a = true
    · rw [if_pos hp] at h
      exact ih e h
    · rw [if_neg hp] at h
      simp only [List.head?_cons, Option.some.injEq] at h
      subst h
      exact Bool.eq_false_iff.mpr hp

theorem head_collapseWsGo (fuel : Nat) (m : PyStr)
    (hm : ∀ e, m.head? = some e → isPySpace e = false) :
    ∀ d rest, collapseWsGo fuel m = d :: rest → isPySpace d = false := by
  cases fuel with
  | zero => intro d rest h; simp [collapseWsGo] at h
  | succ n =>
    cases m with
    | nil => intro d rest h; simp [collapseWsGo] at h
    | cons a as =>
      intro d rest h
      have ha : isPySpace a = false := hm a rfl
      rw [collapseWsGo, if_neg (by simp [ha])] at h
      cases h
      exact ha

theorem chain'_collapseWsGo :
    ∀ (fuel : Nat) (l : PyStr), l.length ≤ fuel →
      (collapseWsGo fuel l).Chain' notBothWs := by
  intro fuel
  induction fuel with
  | zero => intro l _; simp [collapseWsGo, List.chain'_nil]
  | succ n ih =>
    intro l hl
    cases l with
    | nil => simp [collapseWsGo, List.chain'_nil]
    | cons a cs =>
      have hcs : cs.length ≤ n := by
        simp only [List.length_cons] at hl
        omega
      rw [collapseWsGo]
      by_cases ha : isPySpace a = true
      · rw [if_pos ha]
        rw [List.chain'_cons']
        refine ⟨?_, ih _ (le_trans (List.dropWhile_sublist isPySpace).length_le hcs)⟩
        intro y hy
        rcases hhead : collapseWsGo n (cs.dropWhile isPySpace) with - | ⟨d, rest⟩
        · rw [hhead] at hy; simp at hy
        · rw [hhead] at hy
          simp only [List.head?_cons, Option.mem_def, Option.some.injEq] at hy
          subst hy
          have hd : isPySpace d = false :=
            head_collapseWsGo n _ (fun e he => head?_dropWhile_false _ _ e he) d rest hhead
          exact fun hc => by rw [hd] at hc; exact Bool.false_ne_true hc.2
      · rw [if_neg ha]
        rw [List.chain'_cons']
        refine ⟨?_, ih cs hcs⟩
        intro y _
        exact fun hc => ha hc.1

theorem collapseWsGo_eq_self :
    ∀ (fuel : Nat) (l : PyStr), l.length ≤ fuel →
      (∀ c ∈ l, isPySpace c = true → c = ' ') →
      l.Chain' notBothWs → collapseWsGo fuel l = l := by
  intro fuel
  induction fuel with
  | zero =>
    intro l hl _ _
    have : l = [] := List.eq_nil_of_length_eq_zero (Nat.le_zero.mp hl)
    subst this
    rfl
  | succ n ih =>
    intro l hl hchar hchain
    cases l with
    | nil => rfl
    | cons a cs =>
      have hcs : cs.length ≤ n := by
        simp only [List.length_cons] at hl
        omega
      rw [collapseWsGo]
      by_cases ha : isPySpace a = true
      · rw [if_pos ha]
        have haSp : a = ' ' := hchar a (List.mem_cons_self a cs) ha
        cases cs with
        | nil => rw [haSp]; simp [collapseWsGo_nil]
        | cons d cs' =>
          have hd : isPySpace d = false := by
            have := (List.chain'_cons'.mp hchain).1 d rfl
            by_contra hcon
            exact this ⟨ha, Bool.of_not_eq_false hcon⟩
          rw [List.dropWhile_cons, if_neg (by simp [hd])]
          rw [ih (d :: cs') hcs (fun c hc => hchar c (List.mem_cons_of_mem a hc))
            (List.Chain'.tail hchain), haSp]
      · rw [if_neg ha]
        rw [ih cs hcs (fun c hc => hchar c (List.mem_cons_of_mem a hc))
          (List.Chain'.tail hchain)]

theorem mem_pyStrip {c : Char} {l : PyStr} (h : c ∈ pyStrip l) : c ∈ l := by
  unfold pyStrip at h
  exact (List.dropWhile_sublist isPySpace).subset
    (( List.rdropWhile_prefix isPySpace _).sublist.subset h)

theorem pyStrip_idem (l : PyStr) : pyStrip (pyStrip l) = pyStrip l := by
  unfold pyStrip
  rcases hA : (List.dropWhile isPySpace l).rdropWhile isPySpace with - | ⟨d, rest⟩
  · simp [List.rdropWhile_nil]
  · have hd : isPySpace d = false := by
      have hpre := List.rdropWhile_prefix isPySpace (List.dropWhile isPySpace l)
      rw [hA] at hpre
      obtain ⟨t, ht⟩ := hpre
      have hh : (List.dropWhile isPySpace l).head? = some d := by
        rw [← ht]; rfl
      exact head?_dropWhile_false _ _ d hh
    rw [List.dropWhile_cons, if_neg (by simp [hd]), ← hA,
      List.rdropWhile_idempotent]

/-- Characters of a collapsed-and-trimmed string: any whitespace character
in it is a plain space. -/
theorem mem_clean_ws (m : PyStr) :
    ∀ c ∈ pyStrip (collapseWs m), isPySpace c = true → c = ' ' :=
  fun c hc hs => mem_collapseWsGo m.length m c (mem_pyStrip hc) hs

/-- A collapsed-and-trimmed string has no two adjacent whitespace
characters. -/
theorem chain_clean_ws (m : PyStr) :
    (pyStrip (collapseWs m)).Chain' notBothWs :=
  List.Chain'.prefix
    ( List.Chain'.suffix (chain'_collapseWsGo m.length m le_rfl)
      (List.dropWhile_suffix isPySpace))
    ( List.rdropWhile_prefix isPySpace _)

attribute [irreducible] preCleanResponse cleanResponse

/-- Any already-normal string (space-only whitespace, no adjacent
whitespace, trimmed) free of the wrapper marker and of the artifact
literal is a fixed point of the response normalizer. -/
theorem cleanResponse_fixed (y : PyStr)
    (hchar : ∀ c ∈ y, isPySpace c = true → c = ' ')
    (hchain : y.Chain' notBothWs)
    (hstr : pyStrip y = y)
    (h1 : ¬ tbMarker <:+: y) (h2 : ¬ tbCloseLit <:+: y) :
    cleanResponse y = y := by
  have hnr : '\r' ∉ y := fun hmem => absurd (hchar '\r' hmem rfl) (by decide)
  have hnn : '\n' ∉ y := fun hmem => absurd (hchar '\n' hmem rfl) (by decide)
  have hTbOpen : ¬ tbOpenLit <:+: y := fun h =>
    h1 ( List.IsInfix.trans (by decide) h)
  have hRN : ¬ ('\r' :: '\n' :: []) <:+: y := fun h => hnr (h.subset (by simp))
  have hN : ¬ ['\n'] <:+: y := fun h => hnn (h.subset (by simp))
  have hR : ¬ ['\r'] <:+: y := fun h => hnr (h.subset (by simp))
  have hpre : preCleanResponse y = y := by
    rw [preCleanResponse_def]
    rw [if_neg h1]
    simp only [fixApiResponseEncoding]
    rw [ replaceAll_of_not_infix _ hTbOpen, replaceAll_of_not_infix _ h2,
      replaceAll_of_not_infix _ hRN, replaceAll_of_not_infix _ hN,
      replaceAll_of_not_infix _ hR]
  have hcol : collapseWs y = y :=
    collapseWsGo_eq_self y.length y le_rfl hchar hchain
  rw [cleanResponse_def, hpre, hcol, hstr]

/-- C2 (amended): the response normalizer is idempotent on every input
whose normalized output no longer contains the `TextBlock` wrapper marker
or the artifact literal `", type="text")`.  (Unrestricted idempotence
fails: see `cleanResponse_not_idempotent`.) -/
theorem cleanResponse_idempotent_without_artifacts (x : PyStr)
    (h1 : ¬ tbMarker <:+: cleanResponse x)
    (h2 : ¬ tbCloseLit <:+: cleanResponse x) :
    cleanResponse (cleanResponse x) = cleanResponse x := by
  refine cleanResponse_fixed (cleanResponse x) ?_ ?_ ?_ h1 h2
  · rw [cleanResponse_def]
    exact mem_clean_ws (preCleanResponse x)
  · rw [cleanResponse_def]
    exact chain_clean_ws (preCleanResponse x)
  · rw [cleanResponse_def]
    exact pyStrip_idem (collapseWs (preCleanResponse x))


/-- A URL passing the scheme check is nonempty. -/
theorem validScheme_ne_nil {url : PyStr} (h : validScheme url) : url ≠ [] := by
  rintro rfl
  rcases h with h | h <;>
    · have := h.length_le
      simp at this

/-- `urlparse` returns the netloc when its brackets match. -/
theorem urlparseNetloc_eq_ok {url d : PyStr} (hnet : netlocOf url = d)
    (hb : ¬ bracketMismatch d) : urlparseNetloc url = .ok d := by
  unfold urlparseNetloc
  rw [hnet, if_neg hb]

/-- `urlparse` raises on a mismatched-bracket netloc. -/
theorem urlparseNetloc_raise {url : PyStr}
    (h : bracketMismatch (netlocOf url)) :
    urlparseNetloc url = .error ("Invalid IPv6 URL").data := if_pos h

/-- `scrape_article` on a non-http(s) URL returns the validation-failure
dictionary. -/
theorem scrapeArticle_invalid {m : List (PyStr × PyStr)} {url : PyStr}
    {env : ScrapeEnv} (h : ¬ validScheme url) :
    scrapeArticle m url env = validationFailureDict := by
  unfold scrapeArticle
  rw [if_pos (Or.inr h)]

/-- On a valid URL, `scrape_article` runs the two-stage fallback. -/
theorem scrapeArticle_valid_unfold {m : List (PyStr × PyStr)} {url : PyStr}
    {env : ScrapeEnv} (h : validScheme url) :
    scrapeArticle m url env =
      match scrapeWithTrafilatura m url env with
      | some r =>
        if r.text ≠ [] then
          successDict ("trafilatura").data (likelyPaywalled url) r
        else scrapeSecondary m url env
      | none => scrapeSecondary m url env := by
  unfold scrapeArticle
  rw [if_neg]
  push_neg
  exact ⟨validScheme_ne_nil h, h⟩

/-- A raise inside `fetch_url` makes the trafilatura helper return
`None`. -/
theorem scrapeWithTrafilatura_fetch_error {m : List (PyStr × PyStr)}
    {url : PyStr} {env : ScrapeEnv} {e : PyStr} (h : env.trafFetch = .error e) :
    scrapeWithTrafilatura m url env = none := by
  unfold scrapeWithTrafilatura
  rw [h]

/-- A raise inside `article.download()` makes the newspaper helper return
`None`. -/
theorem scrapeWithNewspaper_download_error {m : List (PyStr × PyStr)}
    {url : PyStr} {env : ScrapeEnv} {e : PyStr}
    (h : env.newsDownload = .error e) :
    scrapeWithNewspaper m url env = none := by
  unfold scrapeWithNewspaper
  rw [h]

/-- Stripped text below 100 characters makes the newspaper helper return
`None`. -/
theorem scrapeWithNewspaper_short {m : List (PyStr × PyStr)} {url : PyStr}
    {env : ScrapeEnv} (h : (pyStrip env.newsText).length < 100) :
    scrapeWithNewspaper m url env = none := by
  unfold scrapeWithNewspaper
  cases hd : env.newsDownload with
  | error e => rfl
  | ok u =>
    cases hp : env.newsParse with
    | error e => rfl
    | ok u2 => exact if_pos (Or.inr h)

/-- The newspaper helper's success value. -/
theorem scrapeWithNewspaper_success (m : List (PyStr × PyStr)) (url : PyStr)
    (env : ScrapeEnv)
    (hd : env.newsDownload = .ok ()) (hp : env.newsParse = .ok ())
    (hne : env.newsText ≠ []) (hlen : 100 ≤ (pyStrip env.newsText).length) :
    scrapeWithNewspaper m url env = some
      { text := env.newsText
        title := if env.newsTitle ≠ [] then env.newsTitle else []
        author := if env.newsAuthors ≠ [] then pyJoinComma env.newsAuthors
          else []
        publication := extractPublicationName m url } := by
  unfold scrapeWithNewspaper
  rw [hd, hp]
  exact if_neg (not_or.mpr ⟨hne, Nat.not_lt.mpr hlen⟩)

/-- Any row the trafilatura helper returns has its publication resolved
from the URL. -/
theorem scrapeWithTrafilatura_publication {m : List (PyStr × PyStr)}
    {url : PyStr} {env : ScrapeEnv} {r : ScrapedFields}
    (h : scrapeWithTrafilatura m url env = some r) :
    r.publication = extractPublicationName m url := by
  unfold scrapeWithTrafilatura at h
  repeat' split at h
  any_goals exact Option.noConfusion h
  all_goals
    cases Option.some.inj h
    rfl

/-- Any row the newspaper helper returns has its publication resolved from
the URL. -/
theorem scrapeWithNewspaper_publication {m : List (PyStr × PyStr)}
    {url : PyStr} {env : ScrapeEnv} {r : ScrapedFields}
    (h : scrapeWithNewspaper m url env = some r) :
    r.publication = extractPublicationName m url := by
  unfold scrapeWithNewspaper at h
  repeat' split at h
  any_goals exact Option.noConfusion h
  all_goals
    cases Option.some.inj h
    rfl

/-- The fallback tail returns either the both-failed dictionary or a
newspaper success dictionary. -/
theorem scrapeSecondary_shape (m : List (PyStr × PyStr)) (url : PyStr)
    (env : ScrapeEnv) :
    scrapeSecondary m url env = bothFailedDict m url ∨
      ∃ r, scrapeWithNewspaper m url env = some r ∧
        scrapeSecondary m url env =
          successDict ("newspaper4k").data (likelyPaywalled url) r := by
  unfold scrapeSecondary
  cases hsn : scrapeWithNewspaper m url env with
  | none => left; rfl
  | some r =>
    by_cases ht : r.text ≠ []
    · right; exact ⟨r, rfl, if_pos ht⟩
    · left; exact if_neg ht

/-- On a valid URL, `scrape_article` returns either a trafilatura success
dictionary or the fallback tail's result. -/
theorem scrapeArticle_shape (m : List (PyStr × PyStr)) (url : PyStr)
    (env : ScrapeEnv) (h : validScheme url) :
    (∃ r, scrapeWithTrafilatura m url env = some r ∧
        scrapeArticle m url env =
          successDict ("trafilatura").data (likelyPaywalled url) r) ∨
      scrapeArticle m url env = scrapeSecondary m url env := by
  rw [scrapeArticle_valid_unfold h]
  cases ht : scrapeWithTrafilatura m url env with
  | none => right; rfl
  | some r =>
    by_cases htx : r.text ≠ []
    · left; exact ⟨r, rfl, if_pos htx⟩
    · right; exact if_neg htx

/-- Every `scrapeArticle` body value is a success or a `success = false`
value carrying an error message; a non-http(s) URL yields the
validation-failure value and a raise inside both extraction methods the
both-failed value. -/
theorem scrapeArticle_value_shape (m : List (PyStr × PyStr))
    (url : PyStr) (env : ScrapeEnv) :
    ((scrapeArticle m url env).success = true ∨
      ((scrapeArticle m url env).success = false ∧
        (scrapeArticle m url env).error ≠ none)) ∧
    (¬ validScheme url → scrapeArticle m url env = validationFailureDict) ∧
    (∀ e e', env.trafFetch = .error e → env.newsDownload = .error e' →
      validScheme url → scrapeArticle m url env = bothFailedDict m url) := by
  refine ⟨?_, fun h => scrapeArticle_invalid h, ?_⟩
  · by_cases hv : validScheme url
    · rcases scrapeArticle_shape m url env hv with ⟨r, -, hr⟩ | hr
      · rw [hr]; left; rfl
      · rw [hr]
        rcases scrapeSecondary_shape m url env with hs | ⟨r, -, hs⟩
        · rw [hs]; right
          exact ⟨rfl, by simp [bothFailedDict]⟩
        · rw [hs]; left; rfl
    · rw [scrapeArticle_invalid hv]; right
      exact ⟨rfl, by simp [validationFailureDict]⟩
  · intro e e' hf hd hv
    rw [scrapeArticle_valid_unfold hv]
    simp only [scrapeWithTrafilatura_fetch_error hf]
    unfold scrapeSecondary
    simp only [scrapeWithNewspaper_download_error hd]

/-- C5 (amended): failures are converted into returned values on every
run where the uncaught `urlparse` call returns — a non-http(s) URL gives
the validation-failure value, raises inside both extraction methods give
the both-failed value, and every body outcome is a success or a
`success = false` value carrying an error message — but a valid-scheme
URL whose netloc has a mismatched bracket makes `scrape_article` itself
raise `ValueError('Invalid IPv6 URL')` (see the counterexample), so the
scrape does not return a value for every input URL string. -/
theorem scrapeArticleRun_failures_are_values (m : List (PyStr × PyStr))
    (url : PyStr) (env : ScrapeEnv) :
    (¬ validScheme url →
      scrapeArticleRun m url env = .ok validationFailureDict) ∧
    (¬ bracketMismatch (netlocOf url) →
      scrapeArticleRun m url env = .ok (scrapeArticle m url env) ∧
      ((scrapeArticle m url env).success = true ∨
        ((scrapeArticle m url env).success = false ∧
          (scrapeArticle m url env).error ≠ none))) ∧
    (∀ e e', env.trafFetch = .error e → env.newsDownload = .error e' →
      validScheme url → ¬ bracketMismatch (netlocOf url) →
      scrapeArticleRun m url env = .ok (bothFailedDict m url)) ∧
    (validScheme url → bracketMismatch (netlocOf url) →
      scrapeArticleRun m url env = .error ("Invalid IPv6 URL").data) := by
  have hok : ¬ bracketMismatch (netlocOf url) →
      scrapeArticleRun m url env = .ok (scrapeArticle m url env) := by
    intro hb
    unfold scrapeArticleRun
    by_cases hv : url = [] ∨ ¬ validScheme url
    · rw [if_pos hv]
      unfold scrapeArticle
      rw [if_pos hv]
    · rw [if_neg hv]
      simp only [urlparseNetloc_eq_ok rfl hb]
  refine ⟨?_, ?_, ?_, ?_⟩
  · intro h
    unfold scrapeArticleRun
    rw [if_pos (Or.inr h)]
  · intro hb
    exact ⟨hok hb, (scrapeArticle_value_shape m url env).1⟩
  · intro e e' hf hd hv hb
    rw [hok hb, (scrapeArticle_value_shape m url env).2.2 e e' hf hd hv]
  · intro hv hb
    unfold scrapeArticleRun
    rw [if_neg (by push_neg; exact ⟨validScheme_ne_nil hv, hv⟩)]
    simp only [urlparseNetloc_raise hb]

/-- The fallback tail always carries the resolved publication. -/
theorem scrapeSecondary_publication (m : List (PyStr × PyStr)) (url : PyStr)
    (env : ScrapeEnv) :
    (scrapeSecondary m url env).publication =
      some (extractPublicationName m url) := by
  rcases scrapeSecondary_shape m url env with hs | ⟨r, hr, hs⟩
  · rw [hs]; rfl
  · rw [hs]
    show some r.publication = _
    rw [scrapeWithNewspaper_publication hr]

/-- C6 (amended): every value returned for a valid http(s) URL — success
via either method, or both-methods-failed — carries
`publication = extract_publication_name(url)`; the non-http(s)
validation-failure value carries no publication key at all (see the
counterexample). -/
theorem scrapeArticle_publication_field (m : List (PyStr × PyStr))
    (url : PyStr) (env : ScrapeEnv) :
    (validScheme url →
      (scrapeArticle m url env).publication =
        some (extractPublicationName m url)) ∧
    (¬ validScheme url → (scrapeArticle m url env).publication = none) := by
  constructor
  · intro hv
    rcases scrapeArticle_shape m url env hv with ⟨r, hr, hs⟩ | hs
    · rw [hs]
      show some r.publication = _
      rw [scrapeWithTrafilatura_publication hr]
    · rw [hs]
      exact scrapeSecondary_publication m url env
  · intro hv
    rw [scrapeArticle_invalid hv]
    rfl

/-- C7: if the primary scraper yields nothing and the secondary parses
nonempty text of stripped length at least 100, the result is that text as
a success with method `newspaper4k`; when the primary yields text the
result is the primary's dictionary, untouched by the secondary; secondary
text of stripped length below 100 makes the whole scrape fail. -/
theorem scrapeArticle_fallback_order (m : List (PyStr × PyStr))
    (url : PyStr) (env : ScrapeEnv) :
    (validScheme url → scrapeWithTrafilatura m url env = none →
      env.newsDownload = .ok () → env.newsParse = .ok () →
      env.newsText ≠ [] → 100 ≤ (pyStrip env.newsText).length →
      (scrapeArticle m url env).success = true ∧
      (scrapeArticle m url env).text = some env.newsText ∧
      (scrapeArticle m url env).method = some (("newspaper4k").data)) ∧
    (∀ r, scrapeWithTrafilatura m url env = some r → r.text ≠ [] →
      validScheme url →
      scrapeArticle m url env =
        successDict ("trafilatura").data (likelyPaywalled url) r) ∧
    (validScheme url → scrapeWithTrafilatura m url env = none →
      (pyStrip env.newsText).length < 100 →
      scrapeArticle m url env = bothFailedDict m url) := by
  refine ⟨?_, ?_, ?_⟩
  · intro hv ht hd hp hne hlen
    have hart : scrapeArticle m url env =
        successDict ("newspaper4k").data (likelyPaywalled url)
          { text := env.newsText
            title := if env.newsTitle ≠ [] then env.newsTitle else []
            author := if env.newsAuthors ≠ [] then pyJoinComma env.newsAuthors
              else []
            publication := extractPublicationName m url } := by
      rw [scrapeArticle_valid_unfold hv]
      simp only [ht]
      unfold scrapeSecondary
      simp only [scrapeWithNewspaper_success m url env hd hp hne hlen]
      exact if_pos hne
    rw [hart]
    exact ⟨rfl, rfl, rfl⟩
  · intro r htr htx hv
    rw [scrapeArticle_valid_unfold hv]
    simp only [htr]
    exact if_pos htx
  · intro hv ht hlen
    rw [scrapeArticle_valid_unfold hv]
    simp only [ht]
    unfold scrapeSecondary
    simp only [scrapeWithNewspaper_short hlen]

/-- `takeWhile` passes over a block whose characters all satisfy the
predicate. -/
theorem takeWhile_append_all (p : Char → Bool) (d rest : PyStr)
    (hd : ∀ c ∈ d, p c = true) :
    (d ++ rest).takeWhile p = d ++ rest.takeWhile p := by
  induction d with
  | nil => simp
  | cons c cs ih =>
    simp only [List.cons_append, List.takeWhile_cons,
      hd c (List.mem_cons_self c cs)]
    rw [ih fun e he => hd e (List.mem_cons_of_mem _ he)]
    simp

/-- `urlparse(...).netloc` of an `https://` URL whose host part contains
no `/`, `?` or `#`. -/
theorem netlocOf_https (d rest : PyStr)
    (hd : ∀ c ∈ d, (!(c == '/' || c == '?' || c == '#')) = true) :
    netlocOf (("https://").data ++ (d ++ '/' :: rest)) = d := by
  show netlocOf
    ('h' :: 't' :: 't' :: 'p' :: 's' :: ':' :: '/' :: '/' :: (d ++ '/' :: rest)) = d
  rw [netlocOf, if_neg (by simp)]
  rw [netlocOf, if_neg (by simp)]
  rw [netlocOf, if_neg (by simp)]
  rw [netlocOf, if_neg (by simp)]
  rw [netlocOf, if_neg (by simp)]
  rw [netlocOf, if_neg (by simp)]
  rw [netlocOf, if_pos (by simp)]
  simp only [List.drop_succ_cons, List.drop_zero]
  rw [takeWhile_append_all _ d ('/' :: rest) hd]
  simp [List.takeWhile_cons]

/-- One leading occurrence of the pattern is replaced; a pattern-free tail
is kept as is. -/
theorem replaceAll_prefix_once (pat rep rest : PyStr) (hne : pat ≠ [])
    (hni : ¬ pat <:+: rest) :
    replaceAll pat rep (pat ++ rest) = rep ++ rest := by
  cases pat with
  | nil => exact absurd rfl hne
  | cons c ct =>
    show replaceAllGo (c :: ct) rep ((c :: ct) ++ rest).length
      ((c :: ct) ++ rest) = rep ++ rest
    rw [show (c :: ct) ++ rest = c :: (ct ++ rest) from rfl]
    simp only [List.length_cons]
    rw [replaceAllGo, if_pos ⟨hne, by exact List.prefix_append _ _⟩]
    congr 1
    rw [show (c :: (ct ++ rest)).drop (c :: ct).length = rest by
      exact List.drop_left (c :: ct) rest]
    exact replaceAllGo_of_not_infix _ _ _ _
      (by simp [List.length_append]) hni

/-- A character admissible in a modelled host is in particular none of
the netloc delimiters. -/
theorem hostChar_weaken {c : Char}
    (h : (!(c == '/' || c == '?' || c == '#' || c == '[' || c == ']')) =
      true) :
    (!(c == '/' || c == '?' || c == '#')) = true := by
  simp only [Bool.not_or, Bool.and_eq_true] at h ⊢
  exact h.1.1

/-- A domain of admissible host characters passes `urlparse`'s bracket
test. -/
theorem hostChar_no_brackets {d : PyStr}
    (hd : ∀ c ∈ d,
      (!(c == '/' || c == '?' || c == '#' || c == '[' || c == ']')) =
        true) :
    ¬ bracketMismatch d := by
  rintro (⟨h1, -⟩ | ⟨h1, -⟩) <;>
  · have := hd _ h1
    simp at this

/-- C8: for a domain mapped in the (externally loaded) publication table,
the resolver returns the exact mapped name both for the bare domain and
for the `www.`-prefixed form of it, and for the unmapped two-label domain
`foo-bar.com` it returns `Foo Bar`. The host-character hypothesis also
excludes the brackets on which the inner `urlparse` would raise. -/
theorem extractPublicationName_resolution :
    (∀ (m : List (PyStr × PyStr)) (d name rest : PyStr),
      pyDictGet m d = some name →
      (∀ c ∈ d,
        (!(c == '/' || c == '?' || c == '#' || c == '[' || c == ']')) =
          true) →
      extractPublicationName m (("https://").data ++ (d ++ '/' :: rest)) =
        name) ∧
    (∀ (m : List (PyStr × PyStr)) (d name rest : PyStr),
      pyDictGet m d = some name →
      (∀ c ∈ d,
        (!(c == '/' || c == '?' || c == '#' || c == '[' || c == ']')) =
          true) →
      ¬ ("www.").data <:+: d →
      pyDictGet m (("www.").data ++ d) = none →
      extractPublicationName m
        (("https://www.").data ++ (d ++ '/' :: rest)) = name) ∧
    extractPublicationName [] (("https://foo-bar.com/baz").data) =
      ("Foo Bar").data := by
  refine ⟨?_, ?_, by decide⟩
  · intro m d name rest hlook hd
    have hd3 : ∀ c ∈ d, (!(c == '/' || c == '?' || c == '#')) = true :=
      fun c hc => hostChar_weaken (hd c hc)
    unfold extractPublicationName
    simp only [urlparseNetloc_eq_ok (netlocOf_https d rest hd3)
      (hostChar_no_brackets hd)]
    unfold extractPublicationFromDomain
    simp only [hlook]
  · intro m d name rest hlook hd hni hww
    have hd3 : ∀ c ∈ d, (!(c == '/' || c == '?' || c == '#')) = true :=
      fun c hc => hostChar_weaken (hd c hc)
    have hnet : netlocOf (("https://www.").data ++ (d ++ '/' :: rest)) =
        ("www.").data ++ d := by
      have := netlocOf_https (("www.").data ++ d) rest
        (by
          intro c hc
          rcases List.mem_append.mp hc with hc | hc
          · fin_cases hc <;> rfl
          · exact hd3 c hc)
      rw [show ("https://").data ++ ((("www.").data ++ d) ++ '/' :: rest) =
          ("https://www.").data ++ (d ++ '/' :: rest) from by
        simp] at this
      exact this
    have hb : ¬ bracketMismatch (("www.").data ++ d) := by
      rintro (⟨h1, -⟩ | ⟨h1, -⟩) <;>
      · rcases List.mem_append.mp h1 with hc | hc
        · exact absurd hc (by decide)
        · have := hd _ hc
          simp at this
    unfold extractPublicationName
    simp only [urlparseNetloc_eq_ok hnet hb]
    unfold extractPublicationFromDomain
    simp only [hww]
    rw [replaceAll_prefix_once (("www.").data) [] d (by decide) hni]
    simp only [List.nil_append, hlook]

/-- `upperChar` never yields the lowercase letter `n`. -/
theorem upperChar_ne_n (c : Char) : upperChar c ≠ 'n' := by
  unfold upperChar
  by_cases h : 97 ≤ c.toNat ∧ c.toNat ≤ 122
  · rw [if_pos h]
    intro hc
    have hval : (Char.ofNat (c.toNat - 32)).toNat = c.toNat - 32 := by
      have hv : (c.toNat - 32).isValidChar := Or.inl (by omega)
      unfold Char.ofNat
      rw [dif_pos hv]
      rfl
    have h110 : ('n').toNat = 110 := by decide
    rw [hc] at hval
    omega
  · rw [if_neg h]
    intro hc
    rw [hc] at h
    exact h (by decide)

/-- No uppercased string equals the display name `English` (its second
character is a lowercase `n`). -/
theorem pyUpper_ne_English (l : PyStr) : pyUpper l ≠ ("English").data := by
  intro h
  unfold pyUpper at h
  cases l with
  | nil => exact List.noConfusion h
  | cons a l1 =>
    cases l1 with
    | nil => simp at h
    | cons b l2 =>
      have hb : upperChar b = 'n' := by
        have h2 := (List.cons.injEq _ _ _ _).mp h
        have h3 := (List.cons.injEq _ _ _ _).mp h2.2
        exact h3.1
      exact upperChar_ne_n b hb

/-- A hit in the association-list lookup comes from a listed pair. -/
theorem pyDictGet_mem :
    ∀ {m : List (PyStr × PyStr)} {k v : PyStr},
      pyDictGet m k = some v → (k, v) ∈ m := by
  intro m
  induction m with
  | nil => intro k v h; exact Option.noConfusion h
  | cons p rest ih =>
    intro k v h
    unfold pyDictGet at h
    split at h
    · next heq =>
      cases p with
      | mk k1 v1 =>
        cases Option.some.inj h
        rw [heq]
        exact List.mem_cons_self _ _
    · exact List.mem_cons_of_mem _ (ih h)

/-- `en` is the only ISO code the table maps to `English`. -/
theorem langMap_english_key :
    ∀ p ∈ langMap, p.2 = ("English").data → p.1 = ("en").data := by
  decide

/-- Fast-path agreement: the `lang_code == 'en'` flag holds exactly when
the mapped (or uppercased) display name is `English`. -/
theorem fastLang_is_english_iff (rawLang : PyStr) :
    ((pyLower rawLang == ("en").data) = true ↔
      (pyDictGet langMap (pyLower rawLang)).getD (pyUpper (pyLower rawLang)) =
        ("English").data) := by
  constructor
  · intro h
    rw [beq_iff_eq] at h
    rw [h]
    decide
  · intro h
    rw [beq_iff_eq]
    cases hlook : pyDictGet langMap (pyLower rawLang) with
    | some v =>
      rw [hlook, Option.getD_some] at h
      exact langMap_english_key _ (pyDictGet_mem hlook) h
    | none =>
      rw [hlook, Option.getD_none] at h
      exact absurd h (pyUpper_ne_English _)

/-- Fallback-path agreement: the `language.lower() == 'english'` flag
holds exactly when the normalized name is `English`. -/
theorem normalizeLanguageName_english_iff (s : PyStr) :
    ((pyLower (normalizeLanguageName s) == ("english").data) = true ↔
      normalizeLanguageName s = ("English").data) := by
  unfold normalizeLanguageName
  cases hf : langNormTable.find?
      (fun e => e.1.any fun kw => decide (kw <:+: pyLower s)) with
  | some e =>
    have hmem := List.mem_of_find?_eq_some hf
    show (pyLower e.2 == ("english").data) = true ↔ e.2 = ("English").data
    fin_cases hmem <;> decide
  | none =>
    have hall := List.find?_eq_none.mp hf
      ([("english").data], ("English").data) (by decide)
    have h1 : ¬ ("english").data <:+: pyLower s := by
      simpa using hall
    rw [beq_iff_eq]
    show pyLower s = ("english").data ↔ s = ("English").data
    constructor
    · intro h
      exact absurd (by rw [h]) h1
    · intro h
      rw [h] at h1
      exact absurd (by decide) h1

/-- C10: every dictionary language detection returns — fast-local path,
Claude-fallback path, and default path alike — has `is_english` true
exactly when its `language` field is the string `English`. -/
theorem detectLanguage_is_english_iff {σ : Type} (env : LangDetectEnv σ)
    (text : PyStr) (info : LangInfo σ)
    (h : detectLanguage env text = .ok info) :
    (info.is_english = true ↔ info.language = ("English").data) := by
  unfold detectLanguage at h
  by_cases htext : text = []
  · rw [if_pos htext] at h
    exact Except.noConfusion h
  · rw [if_neg htext] at h
    split at h
    · next rawLang score heq =>
      cases Except.ok.inj h
      exact fastLang_is_english_iff rawLang
    · split at h
      · next response heq2 =>
        cases Except.ok.inj h
        exact normalizeLanguageName_english_iff _
      · next e heq2 =>
        cases Except.ok.inj h
        simp

/-- C3 (amended): for every nonempty article text, language detection
returns a value and never raises; whenever the fast local stage is
unavailable or failed and the Claude fallback also fails, the returned
value is the English default (`method` `default`) carrying the failure's
error message.  (On the empty string the source raises a `ValueError`:
see the counterexample.) -/
theorem detectLanguage_nonempty_never_raises {σ : Type}
    (env : LangDetectEnv σ) (text : PyStr) (h : text ≠ []) :
    (∃ info, detectLanguage env text = .ok info) ∧
    (∀ e, (env.fastAvailable = false ∨ (∃ e', env.fastDetect = .error e')) →
      env.llmDetect = .error e →
      detectLanguage env text =
        .ok { language := ("English").data, is_english := true,
              confidence := none, method := ("default").data,
              error := some e }) := by
  constructor
  · unfold detectLanguage
    rw [if_neg h]
    split
    · exact ⟨_, rfl⟩
    · split
      · exact ⟨_, rfl⟩
      · exact ⟨_, rfl⟩
  · intro e hfast hllm
    unfold detectLanguage
    rw [if_neg h]
    have hnone : (if env.fastAvailable then some env.fastDetect else none) =
        none ∨
        ∃ e', (if env.fastAvailable then some env.fastDetect else none) =
          some (Except.error e') := by
      rcases hfast with hf | ⟨e', hf⟩
      · left; simp [hf]
      · by_cases hav : env.fastAvailable
        · right; exact ⟨e', by rw [if_pos hav, hf]⟩
        · left; rw [if_neg hav]
    rcases hnone with hn | ⟨e', hn⟩
    · simp only [hn, hllm]
    · simp only [hn, hllm]

/-- A main-completion failure message never equals the author-validation
message (their first characters differ). -/
theorem errorPrefixed_ne_authorMsg (e : PyStr) :
    (("Error getting summary from Claude: ").data ++ e) ≠
      ("Author name is required for op-ed articles").data := by
  intro h
  have h0 := congrArg List.head? h
  simp at h0

/-- C4 (amended): with text, publication and sentence count valid,
`get_summary` raises the author-validation error exactly for an op-ed
with a falsy author.  An interview with no author does not raise it (see
the counterexample), and neither do news or feature articles. -/
theorem getSummary_author_validation {σ : Type} (env : SummaryEnv σ)
    (article_text publication article_type : PyStr) (author : Option PyStr)
    (si : Option PyStr) (n : Nat) (cn : Option PyStr) (cc : Option Nat)
    (h1 : article_text ≠ []) (h2 : publication ≠ [])
    (h3 : 2 ≤ n ∧ n ≤ 6) :
    (getSummary env article_text publication article_type author si n cn cc =
        .error ("Author name is required for op-ed articles").data ↔
      (article_type = ("op-ed").data ∧ (author = none ∨ author = some []))) := by
  unfold getSummary
  rw [if_neg (not_or.mpr ⟨h1, h2⟩)]
  by_cases hcond : article_type = ("op-ed").data ∧
      (author = none ∨ author = some [])
  · rw [if_pos hcond]
    simp [hcond]
  · rw [if_neg hcond, if_neg (not_not.mpr h3)]
    constructor
    · intro habs
      exfalso
      rcases (detectLanguage_nonempty_never_raises env.lang article_text
        h1).1 with ⟨info, hinfo⟩
      rw [hinfo] at habs
      cases hmc : env.mainCall with
      | ok r =>
        rw [hmc] at habs
        exact Except.noConfusion habs
      | error e =>
        rw [hmc] at habs
        exact errorPrefixed_ne_authorMsg e (Except.error.inj habs)
    · intro hc
      exact absurd hc hcond

theorem prefix_append_cases (p a b : List Char) (h : p <+: a ++ b) :
    p <+: a ∨ ∃ q, p = a ++ q ∧ q <+: b := by
  induction a generalizing p with
  | nil =>
    right
    exact ⟨p, (List.nil_append p).symm, by simpa using h⟩
  | cons c a' ih =>
    cases p with
    | nil => left; exact List.nil_prefix
    | cons d p' =>
      rw [List.cons_append] at h
      obtain ⟨hd, hp⟩ := List.cons_prefix_cons.mp h
      rcases ih p' hp with h' | ⟨q, hq1, hq2⟩
      · left; exact List.cons_prefix_cons.mpr ⟨hd, h'⟩
      · right
        refine ⟨q, ?_, hq2⟩
        rw [List.cons_append, hd, hq1]

theorem infix_append_cases (p x b : List Char) (h : p <:+: x ++ b) :
    p <:+: x ∨ p <:+: b ∨
      ∃ k, 0 < k ∧ k < p.length ∧ p.take k <:+ x ∧ p.drop k <+: b := by
  induction x with
  | nil =>
    right; left
    simpa using h
  | cons c x' ih =>
    rw [List.cons_append] at h
    rcases List.infix_cons_iff.mp h with hpre | hinf
    · rcases prefix_append_cases p (c :: x') b (by rwa [List.cons_append])
        with h' | ⟨q, hq1, hq2⟩
      · left; exact h'.isInfix
      · by_cases hq : q = []
        · subst hq
          left
          rw [hq1, List.append_nil]
        · right; right
          refine ⟨(c :: x').length, by simp, ?_, ?_, ?_⟩
          · rw [hq1, List.length_append]
            have := List.length_pos.mpr hq
            omega
          · simp [hq1, List.take_left]
          · rw [hq1, List.drop_left]
            exact hq2
    · rcases ih hinf with h' | h' | ⟨k, hk1, hk2, hsx, hpb⟩
      · left; exact List.infix_cons_iff.mpr (Or.inr h')
      · right; left; exact h'
      · right; right
        exact ⟨k, hk1, hk2, hsx.trans (List.suffix_cons c x'), hpb⟩

theorem getLast?_append_cons (u : List Char) (c : Char) (cs : List Char) :
    (u ++ c :: cs).getLast? = (c :: cs).getLast? := by
  induction u with
  | nil => rfl
  | cons d u' ih =>
    rw [List.cons_append]
    cases hu : u' ++ c :: cs with
    | nil => exact absurd (congrArg List.length hu) (by simp)
    | cons e rest =>
      rw [List.getLast?_cons_cons, ← hu, ih]

theorem roleSentinel_chars :
    roleSentinel = 'N' :: 'O' :: '_' :: 'R' :: 'O' :: 'L' :: 'E' :: [] := rfl

theorem sentinel_not_infix_append (x b : PyStr)
    (hx : ¬ roleSentinel <:+: x) (hb : ¬ roleSentinel <:+: b)
    (hg : (∃ c, b.head? = some c ∧ c ∉ (['O','_','R','L','E'] : List Char)) ∨
          (∃ c, x.getLast? = some c ∧ c ∉ (['N','O','_','R','L'] : List Char))) :
    ¬ roleSentinel <:+: x ++ b := by
  intro h
  rcases infix_append_cases roleSentinel x b h with h | h | ⟨k, hk1, hk2, hsx, hpb⟩
  · exact hx h
  · exact hb h
  · have hklt : k < 7 := by
      simpa [roleSentinel_chars] using hk2
    rcases hg with ⟨c, hc, hcset⟩ | ⟨c, hc, hcset⟩
    · obtain ⟨t, ht⟩ := hpb
      interval_cases k <;>
      · rw [← ht] at hc
        simp [roleSentinel_chars] at hc
        subst hc
        simp at hcset
    · obtain ⟨u, hu⟩ := hsx
      interval_cases k <;>
      · rw [← hu] at hc
        simp [roleSentinel_chars, getLast?_append_cons] at hc
        subst hc
        simp at hcset

theorem natDigitsGo_digits :
    ∀ (fuel n : Nat), ∀ c ∈ natDigitsGo fuel n,
      48 ≤ c.toNat ∧ c.toNat ≤ 57 := by
  intro fuel
  induction fuel with
  | zero => intro n c h; simp [natDigitsGo] at h
  | succ f ih =>
    intro n c h
    rw [natDigitsGo] at h
    by_cases hn : n < 10
    · rw [if_pos hn] at h
      simp only [List.mem_singleton] at h
      subst h
      have hval : (Char.ofNat (48 + n)).toNat = 48 + n := by
        have hv : (48 + n).isValidChar := Or.inl (by omega)
        unfold Char.ofNat
        rw [dif_pos hv]
        rfl
      omega
    · rw [if_neg hn] at h
      rcases List.mem_append.mp h with h | h
      · exact ih _ c h
      · simp only [List.mem_singleton] at h
        subst h
        have hlt : n % 10 < 10 := Nat.mod_lt _ (by omega)
        have hval : (Char.ofNat (48 + n % 10)).toNat = 48 + n % 10 := by
          have hv : (48 + n % 10).isValidChar := Or.inl (by omega)
          unfold Char.ofNat
          rw [dif_pos hv]
          rfl
        omega

theorem sentinel_not_natRepr (n : Nat) : ¬ roleSentinel <:+: natRepr n := by
  intro h
  have hN : 'N' ∈ natRepr n := h.subset (by rw [roleSentinel_chars]; simp)
  have hb := natDigitsGo_digits (n + 1) n 'N' hN
  have : ('N').toNat = 78 := by decide
  omega

theorem instructionText_shape (si : Option PyStr) :
    instructionText si = [] ∨ ∃ xs, instructionText si = xs ++ ['.'] := by
  cases si with
  | none => left; rfl
  | some s =>
    by_cases h : s ≠ []
    · right
      refine ⟨(" Pay special attention to the following aspects: ").data ++ s,
        ?_⟩
      show (if s ≠ [] then
          (" Pay special attention to the following aspects: ").data ++ s ++
            (".").data
        else []) = _
      rw [if_pos h]
    · left
      show (if s ≠ [] then
          (" Pay special attention to the following aspects: ").data ++ s ++
            (".").data
        else []) = []
      exact if_neg h

theorem opEdAuthorIntro_bare (a : PyStr) (rc : LibCall PyStr)
    (hrole : (∃ e, rc = .error e) ∨
      (∃ r, rc = .ok r ∧ pyStrip r = ("NO_ROLE").data)) :
    opEdAuthorIntro a rc = a := by
  rcases hrole with ⟨e, rfl⟩ | ⟨r, rfl, hr⟩
  · rfl
  · show (if pyStrip r ≠ [] ∧ pyStrip r ≠ ("NO_ROLE").data then
        a ++ (", ").data ++
          pyStripChars (" ,").data (pyStrip (replaceAll a [] (pyStrip r)))
      else a) = a
    exact if_neg (by rintro ⟨-, hne⟩; exact hne hr)

set_option maxRecDepth 4000 in
theorem opEdUserPrompt_no_sentinel (n : Nat)
    (spelling instr ctx pub a text : PyStr)
    (hsp : ¬ roleSentinel <:+: spelling) (hin : ¬ roleSentinel <:+: instr)
    (hinsh : instr = [] ∨ ∃ xs, instr = xs ++ ['.'])
    (hcx : ¬ roleSentinel <:+: ctx) (hpub : ¬ roleSentinel <:+: pub)
    (ha : ¬ roleSentinel <:+: a) (htx : ¬ roleSentinel <:+: text) :
    ¬ roleSentinel <:+: opEdUserPrompt n spelling instr ctx pub a text := by
  unfold opEdUserPrompt
  simp only [List.append_assoc]
  refine sentinel_not_infix_append _ _ (by decide) ?_
    (Or.inr ⟨' ', by decide, by decide⟩)
  refine sentinel_not_infix_append _ _ (sentinel_not_natRepr n) ?_
    (Or.inl ⟨' ', rfl, by decide⟩)
  refine sentinel_not_infix_append _ _ (by decide) ?_
    (Or.inr ⟨' ', by decide, by decide⟩)
  refine sentinel_not_infix_append _ _ hsp ?_
    (Or.inl ⟨' ', rfl, by decide⟩)
  refine sentinel_not_infix_append _ _ (by decide) ?_
    (Or.inr ⟨'.', by decide, by decide⟩)
  have tail_ok : ¬ roleSentinel <:+:
      ctx ++ ((" For your first sentence: Begin with '").data ++
        (pub ++ ((" carries an op-ed by ").data ++
          (a ++ (("' and include a brief overview of their main argument. For remaining ").data ++
            (natRepr (n - 1) ++
              ((" sentences, begin these sentences like  '[author last name] argues/highlights/describes/discusses/notes/cites that'.\n\nArticle: ").data ++
                text))))))) := by
    refine sentinel_not_infix_append _ _ hcx ?_
      (Or.inl ⟨' ', rfl, by decide⟩)
    refine sentinel_not_infix_append _ _ (by decide) ?_
      (Or.inr ⟨Char.ofNat 39, by decide, by decide⟩)
    refine sentinel_not_infix_append _ _ hpub ?_
      (Or.inl ⟨' ', rfl, by decide⟩)
    refine sentinel_not_infix_append _ _ (by decide) ?_
      (Or.inr ⟨' ', by decide, by decide⟩)
    refine sentinel_not_infix_append _ _ ha ?_
      (Or.inl ⟨Char.ofNat 39, rfl, by decide⟩)
    refine sentinel_not_infix_append _ _ (by decide) ?_
      (Or.inr ⟨' ', by decide, by decide⟩)
    refine sentinel_not_infix_append _ _ (sentinel_not_natRepr (n - 1)) ?_
      (Or.inl ⟨' ', rfl, by decide⟩)
    exact sentinel_not_infix_append _ _ (by decide) htx
      (Or.inr ⟨' ', by decide, by decide⟩)
  rcases hinsh with hnil | ⟨xs, hxs⟩
  · rw [hnil, List.nil_append]
    exact tail_ok
  · refine sentinel_not_infix_append _ _ hin tail_ok
      (Or.inr ⟨'.', ?_, by decide⟩)
    rw [hxs]
    exact List.getLast?_concat _

/-- C9: for an op-ed whose role-extraction call raises or returns the
`NO_ROLE` sentinel, `get_summary` still completes on a successful main
call; its prompt is the op-ed prompt built with the bare author name; and
when none of the caller-supplied pieces contains the sentinel, neither
does the composed prompt. -/
theorem getSummary_opEd_role_fallback {σ : Type} (env : SummaryEnv σ)
    (article_text publication a : PyStr) (si : Option PyStr) (n : Nat)
    (cn : Option PyStr) (cc : Option Nat) (language_info : LangInfo σ)
    (h1 : article_text ≠ []) (h2 : publication ≠ [])
    (h3 : 2 ≤ n ∧ n ≤ 6) (ha : a ≠ [])
    (hrole : (∃ e, env.roleCall = .error e) ∨
      (∃ r, env.roleCall = .ok r ∧ pyStrip r = ("NO_ROLE").data))
    (hlang : detectLanguage env.lang article_text = .ok language_info) :
    (∀ resp, env.mainCall = .ok resp →
      getSummary env article_text publication (("op-ed").data) (some a) si n
        cn cc = .ok (cleanResponse resp)) ∧
    summaryUserPrompt env article_text publication (("op-ed").data) (some a)
        si n cn cc language_info =
      opEdUserPrompt n (spellingFor language_info) (instructionText si)
        (clientContextOf cn cc) publication a article_text ∧
    (¬ roleSentinel <:+: spellingFor language_info →
      ¬ roleSentinel <:+: instructionText si →
      ¬ roleSentinel <:+: clientContextOf cn cc →
      ¬ roleSentinel <:+: publication → ¬ roleSentinel <:+: a →
      ¬ roleSentinel <:+: article_text →
      ¬ roleSentinel <:+:
        summaryUserPrompt env article_text publication (("op-ed").data)
          (some a) si n cn cc language_info) := by
  have heq : summaryUserPrompt env article_text publication (("op-ed").data)
      (some a) si n cn cc language_info =
      opEdUserPrompt n (spellingFor language_info) (instructionText si)
        (clientContextOf cn cc) publication a article_text := by
    unfold summaryUserPrompt
    rw [if_neg (by decide), if_neg (by decide), if_pos rfl,
      opEdAuthorIntro_bare (optStr (some a)) env.roleCall hrole]
    rfl
  refine ⟨?_, heq, ?_⟩
  · intro resp hresp
    unfold getSummary
    rw [if_neg (by rintro (h | h); exacts [h1 h, h2 h]),
      if_neg (by
        rintro ⟨-, h | h⟩
        · exact Option.noConfusion h
        · exact ha (Option.some.inj h)),
      if_neg (not_not_intro h3)]
    simp only [hlang, hresp]
  · intro hsp hin hcx hpub hA htx
    rw [heq]
    exact opEdUserPrompt_no_sentinel n (spellingFor language_info)
      (instructionText si) (clientContextOf cn cc) publication a article_text
      hsp hin (instructionText_shape si) hcx hpub hA htx

set_option allowUnsafeReducibility true in
attribute [semireducible] preCleanResponse cleanResponse

/-- C2 counterexample: a concrete input on which applying the response
normalizer twice differs from applying it once.  On this input the
artifact-literal removal pass reassembles a fresh `", type="text")`
artifact out of two broken halves; one pass leaves it, the second removes
it. -/
theorem cleanResponse_not_idempotent :
    cleanResponse (cleanResponse ("\", type=\"te\", type=\"text\")xt\")").data) ≠
      cleanResponse ("\", type=\"te\", type=\"text\")xt\")").data := by
  decide

/-- Concrete normalizer evaluations on the witness input, recorded while
the definitions are still reducible. -/
theorem helloNormalizedFacts :
    ¬ tbMarker <:+: cleanResponse ("Hello  world\n").data ∧
      ¬ tbCloseLit <:+: cleanResponse ("Hello  world\n").data := by
  constructor <;> decide

/-- Witness for `cleanResponse_idempotent_without_artifacts` at a concrete
input. -/
theorem cleanResponse_idempotent_without_artifacts_witness :
    (¬ tbMarker <:+: cleanResponse ("Hello  world\n").data ∧
     ¬ tbCloseLit <:+: cleanResponse ("Hello  world\n").data) ∧
    cleanResponse (cleanResponse ("Hello  world\n").data) =
      cleanResponse ("Hello  world\n").data :=
  ⟨helloNormalizedFacts,
    cleanResponse_idempotent_without_artifacts ("Hello  world\n").data
      helloNormalizedFacts.1 helloNormalizedFacts.2⟩

/-- C1: the mention counter returns exactly the number of non-overlapping
case-insensitive matches of the single combined pattern
`\b<name>(?:'?s)?\b` (each possessive form counted once), returns 0 when
the name or the text is empty, and on the text
`Acme makes widgets. Acme's factory is large.` with name `Acme` it returns
2 — while the discarded three-pattern sum of the source would give 3. -/
theorem countClientMentions_matches_spec :
    (∀ text name, countClientMentions text name = specMentionCount text name) ∧
    (∀ name, countClientMentions [] name = 0) ∧
    (∀ text, countClientMentions text [] = 0) ∧
    countClientMentions ("Acme makes widgets. Acme's factory is large.").data
      ("Acme").data = 2 ∧
    tripleMentionSum ("Acme makes widgets. Acme's factory is large.").data
      ("Acme").data = 3 := by
  refine ⟨fun text name => rfl, fun name => rfl, ?_, by decide, by decide⟩
  intro text
  simp [countClientMentions]

/-- C6 counterexample: the value `scrape_article` returns for the
non-http(s) input `notaurl` carries no publication field at all, although
the claim says every returned value carries the resolved publication. -/
theorem scrapeArticle_validation_failure_lacks_publication :
    (scrapeArticle [] (("notaurl").data) stubScrapeEnv).publication = none := by
  decide

/-- C5 counterexample: `http://[` passes the scheme check, and the
uncaught `urlparse` call then raises `Invalid IPv6 URL` out of
`scrape_article`, so the scrape does not return a value for every input
URL string. -/
theorem scrapeArticleRun_bracket_raises :
    validScheme (("http://[").data) ∧
    scrapeArticleRun [] (("http://[").data) stubScrapeEnv =
      .error ("Invalid IPv6 URL").data :=
  ⟨by decide, rfl⟩

/-- Witness for `scrapeArticleRun_failures_are_values` at concrete
inputs: a rejected scheme, a double scraper raise turned into the
both-failed value, and a bracket netloc raising. -/
theorem scrapeArticleRun_failures_are_values_witness :
    (¬ validScheme (("notaurl").data) ∧
      scrapeArticleRun [] (("notaurl").data) stubScrapeEnv =
        .ok validationFailureDict) ∧
    (validScheme (("https://x.com/a").data) ∧
      scrapeArticleRun [] (("https://x.com/a").data) raisingScrapeEnv =
        .ok (bothFailedDict [] (("https://x.com/a").data))) ∧
    (validScheme (("http://[x").data) ∧
      scrapeArticleRun [] (("http://[x").data) raisingScrapeEnv =
        .error ("Invalid IPv6 URL").data) :=
  ⟨⟨by decide,
    (scrapeArticleRun_failures_are_values [] (("notaurl").data)
      stubScrapeEnv).1 (by decide)⟩,
   ⟨by decide,
    (scrapeArticleRun_failures_are_values [] (("https://x.com/a").data)
      raisingScrapeEnv).2.2.1 (("connection reset").data)
      (("HTTP 403").data) rfl rfl (by decide) (by decide)⟩,
   ⟨by decide,
    (scrapeArticleRun_failures_are_values [] (("http://[x").data)
      raisingScrapeEnv).2.2.2 (by decide) (by decide)⟩⟩

/-- Witness for `scrapeArticle_publication_field` at concrete inputs. -/
theorem scrapeArticle_publication_field_witness :
    (validScheme (("https://foo-bar.com/baz").data) ∧
      (scrapeArticle [] (("https://foo-bar.com/baz").data)
        stubScrapeEnv).publication =
        some (extractPublicationName [] (("https://foo-bar.com/baz").data))) ∧
    (¬ validScheme (("notaurl").data) ∧
      (scrapeArticle [] (("notaurl").data) stubScrapeEnv).publication =
        none) :=
  ⟨⟨by decide,
    (scrapeArticle_publication_field [] (("https://foo-bar.com/baz").data)
      stubScrapeEnv).1 (by decide)⟩,
   ⟨by decide,
    (scrapeArticle_publication_field [] (("notaurl").data)
      stubScrapeEnv).2 (by decide)⟩⟩

/-- Witness for `scrapeArticle_fallback_order` at concrete inputs. -/
theorem scrapeArticle_fallback_order_witness :
    ((scrapeArticle [] (("https://x.com/a").data) newsOkScrapeEnv).success =
        true ∧
      (scrapeArticle [] (("https://x.com/a").data) newsOkScrapeEnv).text =
        some (List.replicate 120 'a') ∧
      (scrapeArticle [] (("https://x.com/a").data) newsOkScrapeEnv).method =
        some (("newspaper4k").data)) ∧
    scrapeArticle [] (("https://x.com/a").data) trafOkScrapeEnv =
      successDict ("trafilatura").data
        (likelyPaywalled (("https://x.com/a").data))
        { text := ("The article body.").data, title := ("A Title").data,
          author := ("An Author").data, publication := ("X").data } ∧
    scrapeArticle [] (("https://x.com/a").data) stubScrapeEnv =
      bothFailedDict [] (("https://x.com/a").data) :=
  ⟨(scrapeArticle_fallback_order [] (("https://x.com/a").data)
      newsOkScrapeEnv).1 (by decide) (by decide) rfl rfl (by decide)
      (by decide),
   (scrapeArticle_fallback_order [] (("https://x.com/a").data)
      trafOkScrapeEnv).2.1
      { text := ("The article body.").data, title := ("A Title").data,
        author := ("An Author").data, publication := ("X").data }
      (by decide) (by decide) (by decide),
   (scrapeArticle_fallback_order [] (("https://x.com/a").data)
      stubScrapeEnv).2.2 (by decide) (by decide) (by decide)⟩

/-- Witness for `extractPublicationName_resolution` at a concrete mapping
and domain. -/
theorem extractPublicationName_resolution_witness :
    (pyDictGet [((("example.com").data), (("Example News").data))]
      (("example.com").data) = some (("Example News").data) ∧
      extractPublicationName [((("example.com").data), (("Example News").data))]
        (("https://").data ++ ((("example.com").data) ++ '/' :: ("x").data)) =
        ("Example News").data) ∧
    extractPublicationName [((("example.com").data), (("Example News").data))]
      (("https://www.").data ++ ((("example.com").data) ++ '/' :: ("x").data)) =
      ("Example News").data :=
  ⟨⟨by decide,
    extractPublicationName_resolution.1
      [((("example.com").data), (("Example News").data))]
      (("example.com").data) (("Example News").data) (("x").data)
      (by decide) (by decide)⟩,
   extractPublicationName_resolution.2.1
      [((("example.com").data), (("Example News").data))]
      (("example.com").data) (("Example News").data) (("x").data)
      (by decide) (by decide) (by decide) (by decide)⟩

/-- C3 counterexample: on the empty article text, language detection
raises a `ValueError` instead of returning a result value, although the
claim covers the empty string. -/
theorem detectLanguage_empty_raises :
    detectLanguage failingLangEnv [] =
      .error ("Article text is required for language detection").data := rfl

/-- Witness for `detectLanguage_nonempty_never_raises` at a concrete
environment in which both stages fail. -/
theorem detectLanguage_nonempty_never_raises_witness :
    (("Hola mundo").data ≠ ([] : PyStr)) ∧
    (∃ info, detectLanguage failingLangEnv (("Hola mundo").data) =
      .ok info) ∧
    detectLanguage failingLangEnv (("Hola mundo").data) =
      .ok { language := ("English").data, is_english := true,
            confidence := none, method := ("default").data,
            error := some ("rate limited").data } :=
  ⟨by decide,
   (detectLanguage_nonempty_never_raises failingLangEnv
     (("Hola mundo").data) (by decide)).1,
   (detectLanguage_nonempty_never_raises failingLangEnv
     (("Hola mundo").data) (by decide)).2
     (("rate limited").data) (Or.inr ⟨("model file missing").data, rfl⟩) rfl⟩

/-- Witness for `detectLanguage_is_english_iff` at a concrete run. -/
theorem detectLanguage_is_english_iff_witness :
    detectLanguage failingLangEnv (("Hola").data) =
      .ok { language := ("English").data, is_english := true,
            confidence := none, method := ("default").data,
            error := some ("rate limited").data } ∧
    ((true : Bool) = true ↔ ("English").data = ("English").data) :=
  ⟨rfl,
   detectLanguage_is_english_iff failingLangEnv (("Hola").data)
     { language := ("English").data, is_english := true,
       confidence := none, method := ("default").data,
       error := some ("rate limited").data } rfl⟩

/-- C4 counterexample: an interview with no author sails through
validation and completes, although the claim says the validation error is
raised whenever the type is `op-ed` or `interview` and no author is
supplied. -/
theorem getSummary_interview_no_author_completes :
    getSummary okSummaryEnv ("Body text.").data ("The Paper").data
      ("interview").data none none 3 none none =
      .ok (("A summary.").data) := rfl

/-- Witness for `getSummary_author_validation` at concrete inputs: the
op-ed case raises, the news case does not. -/
theorem getSummary_author_validation_witness :
    (getSummary okSummaryEnv ("Body text.").data ("The Paper").data
        ("op-ed").data none none 3 none none =
        .error ("Author name is required for op-ed articles").data) ∧
    ¬ (getSummary okSummaryEnv ("Body text.").data ("The Paper").data
        ("news").data none none 3 none none =
        .error ("Author name is required for op-ed articles").data) :=
  ⟨(getSummary_author_validation okSummaryEnv ("Body text.").data
      ("The Paper").data ("op-ed").data none none 3 none none
      (by decide) (by decide) (by decide)).mpr ⟨rfl, Or.inl rfl⟩,
   fun habs =>
    by
      have := (getSummary_author_validation okSummaryEnv ("Body text.").data
        ("The Paper").data ("news").data none none 3 none none
        (by decide) (by decide) (by decide)).mp habs
      exact absurd this.1 (by decide)⟩


set_option maxRecDepth 8000 in
/-- Concrete instantiation of the op-ed role-fallback theorem: with the
role call answering `NO_ROLE`, a nonempty article and author, the summary
completes and the composed prompt is sentinel-free. -/
theorem getSummary_opEd_role_fallback_witness :
    (("Hello.").data ≠ [] ∧ ("The Times").data ≠ [] ∧ (2 ≤ 3 ∧ 3 ≤ 6) ∧
      ("James Smith").data ≠ []) ∧
    getSummary okSummaryEnv (("Hello.").data) (("The Times").data)
        (("op-ed").data) (some (("James Smith").data)) none 3 none none =
      .ok (cleanResponse (("A summary.").data)) ∧
    ¬ roleSentinel <:+:
      summaryUserPrompt okSummaryEnv (("Hello.").data) (("The Times").data)
        (("op-ed").data) (some (("James Smith").data)) none 3 none none
        { language := ("English").data, is_english := true,
          confidence := some (), method := ("fast-langdetect").data } := by
  have h := getSummary_opEd_role_fallback okSummaryEnv (("Hello.").data)
    (("The Times").data) (("James Smith").data) none 3 none none
    { language := ("English").data, is_english := true,
      confidence := some (), method := ("fast-langdetect").data }
    (by decide) (by decide) (by decide) (by decide)
    (Or.inr ⟨("NO_ROLE").data, rfl, by decide⟩) rfl
  exact ⟨⟨by decide, by decide, by decide, by decide⟩,
    h.1 (("A summary.").data) rfl,
    h.2.2 (by decide) (by decide) (by decide) (by decide) (by decide)
      (by decide)⟩
